import Mathlib

/-!
Formal model of the numeric core of the `spatial` repository
(packages `geometry`, `kinematics`, `numeric`, `errors`).

Floating-point numbers are modelled by `EFloat K`: either a finite value
drawn from a linear ordered field `K` (exact arithmetic, so finite
operations never round and never overflow), or one of the IEEE-754
special values `+Inf`, `-Inf`, `NaN` (a single unsigned zero is used).
The IEEE propagation rules for the special values are kept:
`Inf - Inf = NaN`, `0 * Inf = NaN`, `x / 0` is `NaN` for `x = 0` and a
signed infinity otherwise, comparisons involving `NaN` are false, and so
on.  Claims about rational computations instantiate `K := ℚ` (fully
computable, so concrete runs are settled by `decide`); claims about
square roots and arctangents instantiate `K := ℝ`.

Transcendental library functions (`math.Sqrt`, `math.Cos`, `math.Sin`,
`math.Atan2`) are external to the repository; definitions that call them
take them as explicit function parameters, and the real-valued
instantiations below model them with `Real.sqrt`, `Real.arctan`, etc.
-/

namespace Spatial

/-- Error kinds of `pkg/errors/errors.go` (only those reachable from the
modelled operations). -/
inductive Err where
  | overflow
  | nanResult
  | divideByZero
  | matrixOutOfRange
  | invalidArgument
  | invalidTol
  | singularMatrix
  deriving DecidableEq, Repr

/-- Model of a Go `float64`: a finite value from `K` (kept exact), or one
of the IEEE special values.  A single unsigned zero is used. -/
inductive EFloat (K : Type) where
  | fin (q : K)
  | pinf
  | ninf
  | nan
  deriving DecidableEq, Repr

namespace EFloat

variable {K : Type} [LinearOrderedField K]

/-- IEEE negation. -/
def neg : EFloat K → EFloat K
  | fin q => fin (-q)
  | pinf => ninf
  | ninf => pinf
  | nan => nan

/-- IEEE addition (exact on finite values; `Inf + (-Inf) = NaN`). -/
def add : EFloat K → EFloat K → EFloat K
  | fin a, fin b => fin (a + b)
  | fin _, pinf => pinf
  | fin _, ninf => ninf
  | pinf, fin _ => pinf
  | ninf, fin _ => ninf
  | pinf, pinf => pinf
  | ninf, ninf => ninf
  | pinf, ninf => nan
  | ninf, pinf => nan
  | nan, _ => nan
  | _, nan => nan

/-- IEEE subtraction, `a - b = a + (-b)`. -/
def sub (a b : EFloat K) : EFloat K := add a (neg b)

/-- IEEE multiplication (exact on finite values; `0 * Inf = NaN`). -/
def mul : EFloat K → EFloat K → EFloat K
  | fin a, fin b => fin (a * b)
  | fin a, pinf => if a = 0 then nan else if 0 < a then pinf else ninf
  | fin a, ninf => if a = 0 then nan else if 0 < a then ninf else pinf
  | pinf, fin b => if b = 0 then nan else if 0 < b then pinf else ninf
  | ninf, fin b => if b = 0 then nan else if 0 < b then ninf else pinf
  | pinf, pinf => pinf
  | ninf, ninf => pinf
  | pinf, ninf => ninf
  | ninf, pinf => ninf
  | nan, _ => nan
  | _, nan => nan

/-- IEEE division (exact on finite values; `x / 0` is `NaN` when `x = 0`
and a signed infinity otherwise; `Inf / Inf = NaN`). -/
def div : EFloat K → EFloat K → EFloat K
  | fin a, fin b =>
      if b = 0 then (if a = 0 then nan else if 0 < a then pinf else ninf)
      else fin (a / b)
  | fin _, pinf => fin 0
  | fin _, ninf => fin 0
  | pinf, fin b => if 0 ≤ b then pinf else ninf
  | ninf, fin b => if 0 ≤ b then ninf else pinf
  | pinf, pinf => nan
  | pinf, ninf => nan
  | ninf, pinf => nan
  | ninf, ninf => nan
  | nan, _ => nan
  | _, nan => nan

/-- IEEE absolute value. -/
def abs : EFloat K → EFloat K
  | fin q => fin |q|
  | pinf => pinf
  | ninf => pinf
  | nan => nan

/-- IEEE equality test (`==` on Go floats): `NaN` compares unequal to
everything, including itself. -/
def beq : EFloat K → EFloat K → Bool
  | fin a, fin b => decide (a = b)
  | pinf, pinf => true
  | ninf, ninf => true
  | _, _ => false

/-- IEEE strict order (`<` on Go floats): false whenever `NaN` is
involved. -/
def blt : EFloat K → EFloat K → Bool
  | fin a, fin b => decide (a < b)
  | fin _, pinf => true
  | ninf, fin _ => true
  | ninf, pinf => true
  | _, _ => false

/-- IEEE non-strict order (`<=` on Go floats): false whenever `NaN` is
involved. -/
def ble (a b : EFloat K) : Bool := blt a b || beq a b

/-- Model of `math.IsInf(x, 0)`. -/
def isInf : EFloat K → Bool
  | pinf => true
  | ninf => true
  | _ => false

/-- Model of `math.IsNaN(x)`. -/
def isNaN : EFloat K → Bool
  | nan => true
  | _ => false

/-- Finiteness test (neither infinite nor `NaN`). -/
def isFin : EFloat K → Bool
  | fin _ => true
  | _ => false

/-- Model of `math.Max` (Go returns `NaN` if either argument is `NaN`, and `+Inf`
if either argument is `+Inf`). -/
def maxE : EFloat K → EFloat K → EFloat K
  | nan, _ => nan
  | _, nan => nan
  | pinf, _ => pinf
  | _, pinf => pinf
  | ninf, b => b
  | a, ninf => a
  | fin a, fin b => fin (max a b)

/-- Model of `math.Min` (Go returns `NaN` if either argument is `NaN`, and `-Inf`
if either argument is `-Inf`). -/
def minE : EFloat K → EFloat K → EFloat K
  | nan, _ => nan
  | _, nan => nan
  | ninf, _ => ninf
  | _, ninf => ninf
  | pinf, b => b
  | a, pinf => a
  | fin a, fin b => fin (min a b)

end EFloat

namespace Numeric

open EFloat

variable {K : Type} [LinearOrderedField K]

/-- Model of `numeric.IsOverflow`: true iff the number is `±Inf`. -/
def IsOverflow (x : EFloat K) : Bool := x.isInf

/-- Model of `numeric.AreAnyOverflow` on an explicit argument list. -/
def AreAnyOverflow (xs : List (EFloat K)) : Bool := xs.any IsOverflow

/-- Model of `numeric.IsInvalidTolerance`: true iff `tol < 0` (the comparison is
an IEEE `<`, so a `NaN` tolerance passes validation). -/
def IsInvalidTolerance (tol : EFloat K) : Bool := tol.blt (fin 0)

/-- Model of `numeric.Signum`: sign of a float, failing on `NaN`. -/
def Signum (a : EFloat K) : Int × Option Err :=
  if a.isNaN then (0, some .nanResult)
  else if a.blt (fin 0) || a.beq .ninf then (-1, none)
  else if (fin 0 : EFloat K).blt a || a.beq .pinf then (1, none)
  else (0, none)

/-- Model of the external `math.Sqrt`: `NaN` on `NaN` and negative
arguments, `+Inf` on `+Inf`; on finite non-negative values it applies a
caller-supplied `msqrt` (instantiated with `Real.sqrt` over `ℝ`). -/
def sqrtE (msqrt : K → K) : EFloat K → EFloat K
  | .fin q => if q < 0 then .nan else .fin (msqrt q)
  | .pinf => .pinf
  | .ninf => .nan
  | .nan => .nan

/-- Model of `numeric.Nrm2`: numerically stable 2-norm `sqrt(a²+b²)`, with the
special case `Nrm2(0,0) = 0`. -/
def Nrm2 (msqrt : K → K) (a b : EFloat K) : EFloat K :=
  if a.beq (fin 0) && b.beq (fin 0) then fin 0
  else
    let x := a.abs
    let y := b.abs
    let u := maxE x y
    let t := (minE x y).div u
    u.mul (sqrtE msqrt (add (fin 1) (t.mul t)))

end Numeric

open EFloat Numeric

variable {K : Type} [LinearOrderedField K]

/-- Model of `geometry.Vector3D`: three float components. -/
structure Vec3 (K : Type) where
  x : EFloat K
  y : EFloat K
  z : EFloat K
  deriving DecidableEq, Repr

/-- Model of `geometry.Vector4D`: four float components. -/
structure Vec4 (K : Type) where
  x : EFloat K
  y : EFloat K
  z : EFloat K
  w : EFloat K
  deriving DecidableEq, Repr

/-- Model of `geometry.Matrix3D`: row-major 3×3 element array `e0 … e8`. -/
structure Mat3 (K : Type) where
  e0 : EFloat K
  e1 : EFloat K
  e2 : EFloat K
  e3 : EFloat K
  e4 : EFloat K
  e5 : EFloat K
  e6 : EFloat K
  e7 : EFloat K
  e8 : EFloat K
  deriving DecidableEq, Repr

/-- Model of `geometry.Matrix4D`: row-major 4×4 element array `e0 … e15`. -/
structure Mat4 (K : Type) where
  e0 : EFloat K
  e1 : EFloat K
  e2 : EFloat K
  e3 : EFloat K
  e4 : EFloat K
  e5 : EFloat K
  e6 : EFloat K
  e7 : EFloat K
  e8 : EFloat K
  e9 : EFloat K
  e10 : EFloat K
  e11 : EFloat K
  e12 : EFloat K
  e13 : EFloat K
  e14 : EFloat K
  e15 : EFloat K
  deriving DecidableEq, Repr

/-- The zero value `geometry.Matrix3D{}` (all elements `0`). -/
def mat3Zero : Mat3 K := ⟨fin 0, fin 0, fin 0, fin 0, fin 0, fin 0, fin 0, fin 0, fin 0⟩

/-- The threshold literal `1e-12` used by `IsNearSingular` gates. -/
def tol12 : EFloat K := fin (1 / 1000000000000)

/-- The threshold literal `1e-13` used by `Invert`. -/
def tol13 : EFloat K := fin (1 / 10000000000000)

/-- Model of `Matrix3D.SetElements`: rejects the whole update if any element is
`±Inf`, otherwise replaces all nine elements. -/
def setElements3 (m : Mat3 K) (m00 m01 m02 m10 m11 m12 m20 m21 m22 : EFloat K) :
    Mat3 K × Option Err :=
  if AreAnyOverflow [m00, m01, m02, m10, m11, m12, m20, m21, m22] then (m, some .overflow)
  else (⟨m00, m01, m02, m10, m11, m12, m20, m21, m22⟩, none)

/-- Model of `Matrix3D.Identity` (the `SetElements` error is ignored in the
source; it cannot occur for these elements). -/
def identity3 (m : Mat3 K) : Mat3 K :=
  (setElements3 m (fin 1) (fin 0) (fin 0) (fin 0) (fin 1) (fin 0) (fin 0) (fin 0) (fin 1)).1

/-- Row-major element lookup used by `ElementAt` (for an index beyond 8
the Go slice access would panic; that point is unreachable for the
in-range indices the claims quantify over). -/
def mat3Elem (m : Mat3 K) : ℕ → EFloat K
  | 0 => m.e0 | 1 => m.e1 | 2 => m.e2 | 3 => m.e3 | 4 => m.e4
  | 5 => m.e5 | 6 => m.e6 | 7 => m.e7 | 8 => m.e8 | _ => fin 0

/-- Row-major element update used by `SetElementAt` (same caveat as
`mat3Elem` for indices beyond 8). -/
def mat3SetElem (m : Mat3 K) (idx : ℕ) (v : EFloat K) : Mat3 K :=
  match idx with
  | 0 => { m with e0 := v } | 1 => { m with e1 := v } | 2 => { m with e2 := v }
  | 3 => { m with e3 := v } | 4 => { m with e4 := v } | 5 => { m with e5 := v }
  | 6 => { m with e6 := v } | 7 => { m with e7 := v } | 8 => { m with e8 := v }
  | _ => m

/-- Model of `Matrix3D.ElementAt(i, j)`:  the guard is `i <= Rows() || j <= Cols()`
(with `Rows() = Cols() = 3`), and on the guard it returns `0` with the
out-of-range error. -/
def elementAt3 (m : Mat3 K) (i j : ℕ) : EFloat K × Option Err :=
  if i ≤ 3 ∨ j ≤ 3 then (fin 0, some .matrixOutOfRange)
  else (mat3Elem m (i * 3 + j), none)

/-- Model of `Matrix3D.SetElementAt(i, j, value)`: same guard as `ElementAt`;
returns the out-of-range error without writing when it fires. -/
def setElementAt3 (m : Mat3 K) (i j : ℕ) (value : EFloat K) : Mat3 K × Option Err :=
  if i ≤ 3 ∨ j ≤ 3 then (m, some .matrixOutOfRange)
  else (mat3SetElem m (i * 3 + j) value, none)

/-- Model of `geometry.multiply3DMatrices(a, b)`: the element formulas transcribed
verbatim from the source (`out[0] = b00*a00 + b01*a10 + b02*a20`, …).
On overflow of any output element it returns the zero array and the
overflow error. -/
def multiply3 (a b : Mat3 K) : Mat3 K × Option Err :=
  let a00 := a.e0; let a01 := a.e1; let a02 := a.e2
  let a10 := a.e3; let a11 := a.e4; let a12 := a.e5
  let a20 := a.e6; let a21 := a.e7; let a22 := a.e8
  let b00 := b.e0; let b01 := b.e1; let b02 := b.e2
  let b10 := b.e3; let b11 := b.e4; let b12 := b.e5
  let b20 := b.e6; let b21 := b.e7; let b22 := b.e8
  let o0 := ((b00.mul a00).add (b01.mul a10)).add (b02.mul a20)
  let o1 := ((b00.mul a01).add (b01.mul a11)).add (b02.mul a21)
  let o2 := ((b00.mul a02).add (b01.mul a12)).add (b02.mul a22)
  let o3 := ((b10.mul a00).add (b11.mul a10)).add (b12.mul a20)
  let o4 := ((b10.mul a01).add (b11.mul a11)).add (b12.mul a21)
  let o5 := ((b10.mul a02).add (b11.mul a12)).add (b12.mul a22)
  let o6 := ((b20.mul a00).add (b21.mul a10)).add (b22.mul a20)
  let o7 := ((b20.mul a01).add (b21.mul a11)).add (b22.mul a21)
  let o8 := ((b20.mul a02).add (b21.mul a12)).add (b22.mul a22)
  if AreAnyOverflow [o0, o1, o2, o3, o4, o5, o6, o7, o8] then (mat3Zero, some .overflow)
  else (⟨o0, o1, o2, o3, o4, o5, o6, o7, o8⟩, none)

/-- Model of `Matrix3D.Premultiply(mat)`: calls `multiply3DMatrices(mat, m)` and
commits the result to the receiver on success. -/
def premultiply3 (m mat : Mat3 K) : Mat3 K × Option Err :=
  match multiply3 mat m with
  | (_, some e) => (m, some e)
  | (res, none) => (res, none)

/-- Model of `Matrix3D.Postmultiply(mat)`: calls `multiply3DMatrices(m, mat)` and
commits the result to the receiver on success. -/
def postmultiply3 (m mat : Mat3 K) : Mat3 K × Option Err :=
  match multiply3 m mat with
  | (_, some e) => (m, some e)
  | (res, none) => (res, none)

/-- Model of `Matrix3D.Determinant`, transcribed verbatim. -/
def det3 (m : Mat3 K) : EFloat K :=
  let a00 := m.e0; let a01 := m.e1; let a02 := m.e2
  let a10 := m.e3; let a11 := m.e4; let a12 := m.e5
  let a20 := m.e6; let a21 := m.e7; let a22 := m.e8
  ((a00.mul ((a22.mul a11).sub (a12.mul a21))).add
    (a01.mul ((a22.neg.mul a10).add (a12.mul a20)))).add
    (a02.mul ((a21.mul a10).sub (a11.mul a20)))

/-- Model of `Matrix3D.Invert`: computes the cofactors and determinant, fails
with the singular-matrix error when `|det| < 1e-13` (receiver
unchanged), otherwise commits the adjugate-over-determinant inverse. -/
def invert3 (m : Mat3 K) : Mat3 K × Option Err :=
  let a00 := m.e0; let a01 := m.e1; let a02 := m.e2
  let a10 := m.e3; let a11 := m.e4; let a12 := m.e5
  let a20 := m.e6; let a21 := m.e7; let a22 := m.e8
  let b01 := (a22.mul a11).sub (a12.mul a21)
  let b11 := (a22.neg.mul a10).add (a12.mul a20)
  let b21 := (a21.mul a10).sub (a11.mul a20)
  let det := ((a00.mul b01).add (a01.mul b11)).add (a02.mul b21)
  if det.abs.blt tol13 then (m, some .singularMatrix)
  else
    let d := (fin 1).div det
    (⟨b01.mul d,
      ((a22.neg.mul a01).add (a02.mul a21)).mul d,
      ((a12.mul a01).sub (a02.mul a11)).mul d,
      b11.mul d,
      ((a22.mul a00).sub (a02.mul a20)).mul d,
      ((a12.neg.mul a00).add (a02.mul a10)).mul d,
      b21.mul d,
      ((a21.neg.mul a00).add (a01.mul a20)).mul d,
      ((a11.mul a00).sub (a01.mul a10)).mul d⟩, none)

/-- Model of `Matrix3D.IsNearSingular(tol)`: invalid-tolerance guard, then
`|Determinant()| <= tol`. -/
def isNearSingular3 (m : Mat3 K) (tol : EFloat K) : Bool × Option Err :=
  if IsInvalidTolerance tol then (false, some .invalidTol)
  else ((det3 m).abs.ble tol, none)

/-- Model of `Matrix4D.SetElements`. -/
def setElements4 (m : Mat4 K)
    (m00 m01 m02 m03 m10 m11 m12 m13 m20 m21 m22 m23 m30 m31 m32 m33 : EFloat K) :
    Mat4 K × Option Err :=
  if AreAnyOverflow [m00, m01, m02, m03, m10, m11, m12, m13,
      m20, m21, m22, m23, m30, m31, m32, m33] then (m, some .overflow)
  else (⟨m00, m01, m02, m03, m10, m11, m12, m13, m20, m21, m22, m23, m30, m31, m32, m33⟩, none)

/-- Model of `Matrix4D.Determinant`, transcribed verbatim (the `b0 … b9`
expansion). -/
def det4 (m : Mat4 K) : EFloat K :=
  let a00 := m.e0; let a01 := m.e1; let a02 := m.e2; let a03 := m.e3
  let a10 := m.e4; let a11 := m.e5; let a12 := m.e6; let a13 := m.e7
  let a20 := m.e8; let a21 := m.e9; let a22 := m.e10; let a23 := m.e11
  let a30 := m.e12; let a31 := m.e13; let a32 := m.e14; let a33 := m.e15
  let b0 := (a00.mul a11).sub (a01.mul a10)
  let b1 := (a00.mul a12).sub (a02.mul a10)
  let b2 := (a01.mul a12).sub (a02.mul a11)
  let b3 := (a20.mul a31).sub (a21.mul a30)
  let b4 := (a20.mul a32).sub (a22.mul a30)
  let b5 := (a21.mul a32).sub (a22.mul a31)
  let b6 := ((a00.mul b5).sub (a01.mul b4)).add (a02.mul b3)
  let b7 := ((a10.mul b5).sub (a11.mul b4)).add (a12.mul b3)
  let b8 := ((a20.mul b2).sub (a21.mul b1)).add (a22.mul b0)
  let b9 := ((a30.mul b2).sub (a31.mul b1)).add (a32.mul b0)
  (((a13.mul b6).sub (a03.mul b7)).add (a33.mul b8)).sub (a23.mul b9)

/-- Model of `Matrix4D.Adjoint`, transcribed verbatim; returns a freshly
allocated matrix and leaves the receiver untouched. -/
def adjoint4 (m : Mat4 K) : Mat4 K :=
  let a00 := m.e0; let a01 := m.e1; let a02 := m.e2; let a03 := m.e3
  let a10 := m.e4; let a11 := m.e5; let a12 := m.e6; let a13 := m.e7
  let a20 := m.e8; let a21 := m.e9; let a22 := m.e10; let a23 := m.e11
  let a30 := m.e12; let a31 := m.e13; let a32 := m.e14; let a33 := m.e15
  let b00 := (a00.mul a11).sub (a01.mul a10)
  let b01 := (a00.mul a12).sub (a02.mul a10)
  let b02 := (a00.mul a13).sub (a03.mul a10)
  let b03 := (a01.mul a12).sub (a02.mul a11)
  let b04 := (a01.mul a13).sub (a03.mul a11)
  let b05 := (a02.mul a13).sub (a03.mul a12)
  let b06 := (a20.mul a31).sub (a21.mul a30)
  let b07 := (a20.mul a32).sub (a22.mul a30)
  let b08 := (a20.mul a33).sub (a23.mul a30)
  let b09 := (a21.mul a32).sub (a22.mul a31)
  let b10 := (a21.mul a33).sub (a23.mul a31)
  let b11 := (a22.mul a33).sub (a23.mul a32)
  ⟨((a11.mul b11).sub (a12.mul b10)).add (a13.mul b09),
   ((a02.mul b10).sub (a01.mul b11)).sub (a03.mul b09),
   ((a31.mul b05).sub (a32.mul b04)).add (a33.mul b03),
   ((a22.mul b04).sub (a21.mul b05)).sub (a23.mul b03),
   ((a12.mul b08).sub (a10.mul b11)).sub (a13.mul b07),
   ((a00.mul b11).sub (a02.mul b08)).add (a03.mul b07),
   ((a32.mul b02).sub (a30.mul b05)).sub (a33.mul b01),
   ((a20.mul b05).sub (a22.mul b02)).add (a23.mul b01),
   ((a10.mul b10).sub (a11.mul b08)).add (a13.mul b06),
   ((a01.mul b08).sub (a00.mul b10)).sub (a03.mul b06),
   ((a30.mul b04).sub (a31.mul b02)).add (a33.mul b00),
   ((a21.mul b02).sub (a20.mul b04)).sub (a23.mul b00),
   ((a11.mul b07).sub (a10.mul b09)).sub (a12.mul b06),
   ((a00.mul b09).sub (a01.mul b07)).add (a02.mul b06),
   ((a31.mul b01).sub (a30.mul b03)).sub (a32.mul b00),
   ((a20.mul b03).sub (a21.mul b01)).add (a22.mul b00)⟩

/-- Model of `Matrix4D.IsNearSingular(tol)`. -/
def isNearSingular4 (m : Mat4 K) (tol : EFloat K) : Bool × Option Err :=
  if IsInvalidTolerance tol then (false, some .invalidTol)
  else ((det4 m).abs.ble tol, none)

/-- Model of the external BLAS kernel `blas64.Gemv(NoTrans, 1, m, v, 0, u)`
for a 4×4 row-major matrix: the standard matrix-vector product
`u_i = Σ_j m[i][j]·v_j` (the spec treats the dense kernel as an external
collaborator supplying exactly this product). -/
def gemv4 (m : Mat4 K) (v : Vec4 K) : Vec4 K :=
  ⟨(((m.e0.mul v.x).add (m.e1.mul v.y)).add (m.e2.mul v.z)).add (m.e3.mul v.w),
   (((m.e4.mul v.x).add (m.e5.mul v.y)).add (m.e6.mul v.z)).add (m.e7.mul v.w),
   (((m.e8.mul v.x).add (m.e9.mul v.y)).add (m.e10.mul v.z)).add (m.e11.mul v.w),
   (((m.e12.mul v.x).add (m.e13.mul v.y)).add (m.e14.mul v.z)).add (m.e15.mul v.w)⟩

/-- Model of the same BLAS kernel for a 3×3 matrix. -/
def gemv3 (m : Mat3 K) (v : Vec3 K) : Vec3 K :=
  ⟨((m.e0.mul v.x).add (m.e1.mul v.y)).add (m.e2.mul v.z),
   ((m.e3.mul v.x).add (m.e4.mul v.y)).add (m.e5.mul v.z),
   ((m.e6.mul v.x).add (m.e7.mul v.y)).add (m.e8.mul v.z)⟩

/-- Model of `Vector4D.MatrixTransform4D`: near-singularity gate at tolerance
`1e-12`, then the BLAS product, then the overflow guard, then commit. -/
def matrixTransform4D (v : Vec4 K) (m : Mat4 K) : Vec4 K × Option Err :=
  match isNearSingular4 m tol12 with
  | (_, some e) => (v, some e)
  | (isSing, none) =>
    if isSing then (v, some .singularMatrix)
    else
      let u := gemv4 m v
      if AreAnyOverflow [u.x, u.y, u.z, u.w] then (v, some .overflow)
      else (u, none)

/-- Model of `Vector3D.Length`: the paired stable-norm fold
`Nrm2(Nrm2(x, y), z)` with the overflow guard. -/
def length3 (msqrt : K → K) (v : Vec3 K) : EFloat K × Option Err :=
  let r := Nrm2 msqrt (Nrm2 msqrt v.x v.y) v.z
  if AreAnyOverflow [r] then (fin 0, some .overflow) else (r, none)

/-- Model of `Vector3D.Negate` (no error path). -/
def negate3 (v : Vec3 K) : Vec3 K := ⟨v.x.neg, v.y.neg, v.z.neg⟩

/-- Model of `Vector3D.Add`: componentwise sums, overflow guard, then commit. -/
def add3 (v w : Vec3 K) : Vec3 K × Option Err :=
  let newX := v.x.add w.x
  let newY := v.y.add w.y
  let newZ := v.z.add w.z
  if AreAnyOverflow [newX, newY, newZ] then (v, some .overflow)
  else (⟨newX, newY, newZ⟩, none)

/-- Model of `Vector3D.Sub`: componentwise differences, overflow guard, commit. -/
def sub3 (v w : Vec3 K) : Vec3 K × Option Err :=
  let newX := v.x.sub w.x
  let newY := v.y.sub w.y
  let newZ := v.z.sub w.z
  if AreAnyOverflow [newX, newY, newZ] then (v, some .overflow)
  else (⟨newX, newY, newZ⟩, none)

/-- Model of `Vector3D.Scale(f)`: `NaN`-argument guard, componentwise products,
overflow guard, commit. -/
def scale3 (v : Vec3 K) (f : EFloat K) : Vec3 K × Option Err :=
  if f.isNaN then (v, some .invalidArgument)
  else
    let newX := v.x.mul f
    let newY := v.y.mul f
    let newZ := v.z.mul f
    if AreAnyOverflow [newX, newY, newZ] then (v, some .overflow)
    else (⟨newX, newY, newZ⟩, none)

/-- Model of `Vector3D.Normalize`: length, divide-by-zero guard on
`math.Abs(l) == 0`, componentwise quotients, overflow guard, commit. -/
def normalize3 (msqrt : K → K) (v : Vec3 K) : Vec3 K × Option Err :=
  match length3 msqrt v with
  | (_, some e) => (v, some e)
  | (l, none) =>
    if l.abs.beq (fin 0) then (v, some .divideByZero)
    else
      let newX := v.x.div l
      let newY := v.y.div l
      let newZ := v.z.div l
      if AreAnyOverflow [newX, newY, newZ] then (v, some .overflow)
      else (⟨newX, newY, newZ⟩, none)

/-- Model of `Vector3D.Dot`: the left-associated sum of componentwise products
with the overflow guard. -/
def dot3 (v w : Vec3 K) : EFloat K × Option Err :=
  let r := ((v.x.mul w.x).add (v.y.mul w.y)).add (v.z.mul w.z)
  if AreAnyOverflow [r] then (fin 0, some .overflow) else (r, none)

/-- Model of `Vector3D.Cross`: returns a fresh vector, or the overflow error if
any component is infinite. -/
def cross3 (v w : Vec3 K) : Except Err (Vec3 K) :=
  let ux := (v.y.mul w.z).sub (v.z.mul w.y)
  let uy := (v.z.mul w.x).sub (v.x.mul w.z)
  let uz := (v.x.mul w.y).sub (v.y.mul w.x)
  if AreAnyOverflow [ux, uy, uz] then .error .overflow
  else .ok ⟨ux, uy, uz⟩

/-- Model of `Vector3D.IsEqualTo(w, tol)`: invalid-tolerance guard, then per-axis
absolute differences compared against `tol` independently. -/
def isEqualTo3 (v w : Vec3 K) (tol : EFloat K) : Bool × Option Err :=
  if IsInvalidTolerance tol then (false, some .invalidTol)
  else
    let dx := (w.x.sub v.x).abs
    let dy := (w.y.sub v.y).abs
    let dz := (w.z.sub v.z).abs
    (dx.ble tol && dy.ble tol && dz.ble tol, none)

/-- Model of `Vector3D.IsParallelTo(w, tol)`: normalize clones of both operands
(the `Normalize` errors are discarded in the source), take the signum of
their dot product, report not-parallel on a zero sign, otherwise flip
the first by the sign and compare within tolerance. -/
def isParallelTo3 (msqrt : K → K) (v w : Vec3 K) (tol : EFloat K) : Bool × Option Err :=
  if IsInvalidTolerance tol then (false, some .invalidTol)
  else
    let vv := (normalize3 msqrt v).1
    let ww := (normalize3 msqrt w).1
    match dot3 vv ww with
    | (_, some e) => (false, some e)
    | (D, none) =>
      match Signum D with
      | (_, some e) => (false, some e)
      | (d, none) =>
        if d = 0 then (false, none)
        else
          match scale3 vv (fin (d : K)) with
          | (_, some e) => (false, some e)
          | (vv2, none) => isEqualTo3 vv2 ww tol

/-- Model of `Vector3D.AngleTo(u)`: Kahan's `atan2` formulation — scale `u` by
`|v|` and `v` by `|u|`, then return `2·atan2(|Y|, |X|)` for
`Y = |v|·u − |u|·v` and `X = |v|·u + |u|·v` (the `Sub`/`Add` errors on
`Y`/`X` are discarded in the source).  `matan2` models the external
`math.Atan2`. -/
def angleTo3 (msqrt : K → K) (matan2 : EFloat K → EFloat K → EFloat K)
    (v u : Vec3 K) : EFloat K × Option Err :=
  match length3 msqrt v with
  | (_, some e) => (fin 0, some e)
  | (lv, none) =>
    match length3 msqrt u with
    | (_, some e) => (fin 0, some e)
    | (lu, none) =>
      match scale3 u lv with
      | (_, some e) => (fin 0, some e)
      | (nVu, none) =>
        match scale3 v lu with
        | (_, some e) => (fin 0, some e)
        | (nUv, none) =>
          let yv := (sub3 nVu nUv).1
          let xv := (add3 nVu nUv).1
          match length3 msqrt yv with
          | (_, some e) => (fin 0, some e)
          | (ay, none) =>
            match length3 msqrt xv with
            | (_, some e) => (fin 0, some e)
            | (ax, none) => ((fin 2).mul (matan2 ay ax), none)

/-- Model of `Vector3D.MatrixTransform3D`: near-singularity gate at `1e-12`,
BLAS product, overflow guard, commit. -/
def matrixTransform3D (v : Vec3 K) (m : Mat3 K) : Vec3 K × Option Err :=
  match isNearSingular3 m tol12 with
  | (_, some e) => (v, some e)
  | (isSing, none) =>
    if isSing then (v, some .singularMatrix)
    else
      let u := gemv3 m v
      if AreAnyOverflow [u.x, u.y, u.z] then (v, some .overflow)
      else (u, none)

/-- Model of `Vector3D.HomogeneousMatrixTransform4D`: lift to `(x, y, z, 1)`,
apply `MatrixTransform4D`, then the source tests `uw != 0` and returns
the divide-by-zero error when that holds — so the division below only
ever runs with `uw == 0`. -/
def homogeneousMatrixTransform4D (v : Vec3 K) (m : Mat4 K) : Vec3 K × Option Err :=
  let u : Vec4 K := ⟨v.x, v.y, v.z, fin 1⟩
  match matrixTransform4D u m with
  | (_, some e) => (v, some e)
  | (u2, none) =>
    if !(u2.w.beq (fin 0)) then (v, some .divideByZero)
    else
      let newX := u2.x.div u2.w
      let newY := u2.y.div u2.w
      let newZ := u2.z.div u2.w
      if AreAnyOverflow [newX, newY, newZ] then (v, some .overflow)
      else (⟨newX, newY, newZ⟩, none)

/-- Model of `kinematics.CoordinateSystem`: basis vectors `b0`, `b1` expressed in
the parent frame, and an optional parent (absent for the root).  The
origin plays no part in the orientation computations and is omitted. -/
inductive CoordSys (K : Type) where
  | root (b0 b1 : Vec3 K)
  | child (b0 b1 : Vec3 K) (parent : CoordSys K)

/-- First basis vector of a frame. -/
def CoordSys.b0 : CoordSys K → Vec3 K
  | .root b0 _ => b0
  | .child b0 _ _ => b0

/-- Second basis vector of a frame. -/
def CoordSys.b1 : CoordSys K → Vec3 K
  | .root _ b1 => b1
  | .child _ b1 _ => b1

/-- Model of `CoordinateSystem.GetLocalOrientation`: `b2 = b0 × b1`, then
`b1' = b0 × b2`, then `SetElements` on a zero-valued matrix with rows
`(b0, b1', b2)` — the `SetElements` error is ignored in the source, so
an infinite element leaves the zero matrix in place. -/
def getLocalOrientation (cs : CoordSys K) : Except Err (Mat3 K) :=
  let b0 := cs.b0
  match cross3 b0 cs.b1 with
  | .error e => .error e
  | .ok b2 =>
    match cross3 b0 b2 with
    | .error e => .error e
    | .ok b1n =>
      .ok (setElements3 mat3Zero b0.x b0.y b0.z b1n.x b1n.y b1n.z b2.x b2.y b2.z).1

/-- The loop body chain of `GetGlobalOrientation`: starting from the
accumulator, premultiply by each frame's local orientation walking from
the current frame up to the root, aborting on the first error. -/
def globalOrientAux : CoordSys K → Mat3 K → Except Err (Mat3 K)
  | .root b0 b1, acc =>
    match getLocalOrientation (.root b0 b1) with
    | .error e => .error e
    | .ok lo =>
      match premultiply3 acc lo with
      | (_, some e) => .error e
      | (acc2, none) => .ok acc2
  | .child b0 b1 p, acc =>
    match getLocalOrientation (.child b0 b1 p) with
    | .error e => .error e
    | .ok lo =>
      match premultiply3 acc lo with
      | (_, some e) => .error e
      | (acc2, none) => globalOrientAux p acc2

/-- Model of `CoordinateSystem.GetGlobalOrientation`: fresh identity accumulator,
then the child-to-root premultiply walk. -/
def getGlobalOrientation (cs : CoordSys K) : Except Err (Mat3 K) :=
  globalOrientAux cs (identity3 mat3Zero)

/-- Model of `kinematics.Transform3D.Set3DRotation(axis, angle)`: clones and
normalizes the axis **discarding the error**, computes the Rodrigues
elements from `math.Cos`/`math.Sin` (modelled by `mcos`/`msin`), calls
`SetElements` **discarding its error too**, and returns `nil`
unconditionally. -/
def set3DRotation (msqrt : K → K) (mcos msin : EFloat K → EFloat K)
    (m : Mat3 K) (axis : Vec3 K) (angle : EFloat K) : Mat3 K × Option Err :=
  let u := (normalize3 msqrt axis).1
  let ux := u.x; let uy := u.y; let uz := u.z
  let c := mcos angle
  let s := msin angle
  let c1 := (fin 1).sub c
  let a00 := c.add ((ux.mul ux).mul c1)
  let a01 := ((ux.mul uy).mul c1).sub (uz.mul s)
  let a02 := ((ux.mul uz).mul c1).add (uy.mul s)
  let a10 := ((ux.mul uy).mul c1).add (uz.mul s)
  let a11 := c.add ((uy.mul uy).mul c1)
  let a12 := ((uy.mul uz).mul c1).sub (ux.mul s)
  let a20 := ((ux.mul uz).mul c1).sub (uy.mul s)
  let a21 := ((uy.mul uz).mul c1).add (ux.mul s)
  let a22 := c.add ((uz.mul uz).mul c1)
  ((setElements3 m a00 a01 a02 a10 a11 a12 a20 a21 a22).1, none)

/-- Model of `kinematics.HomogeneousTransform4D.Set3DTranslation(v)`: calls
`SetElements` **on the freshly allocated matrix returned by `Adjoint()`**
and returns that call's error; the receiver is never written. -/
def set3DTranslation4D (m : Mat4 K) (v : Vec3 K) : Mat4 K × Option Err :=
  let adj := adjoint4 m
  let res := setElements4 adj (fin 1) (fin 0) (fin 0) v.x
    (fin 0) (fin 1) (fin 0) v.y
    (fin 0) (fin 0) (fin 1) v.z
    (fin 0) (fin 0) (fin 0) (fin 1)
  (m, res.2)

/-- A float is finite when it is a `fin` value. -/
def EFloat.IsFinite (x : EFloat K) : Prop := ∃ q, x = EFloat.fin q

/-- All three stored components are finite. -/
def Vec3.FinAll (v : Vec3 K) : Prop := v.x.IsFinite ∧ v.y.IsFinite ∧ v.z.IsFinite

/-- No stored component is a `NaN`. -/
def Vec3.NoNaN (v : Vec3 K) : Prop :=
  v.x.isNaN = false ∧ v.y.isNaN = false ∧ v.z.isNaN = false

/-- All nine stored elements are finite. -/
def Mat3.FinAll (m : Mat3 K) : Prop :=
  m.e0.IsFinite ∧ m.e1.IsFinite ∧ m.e2.IsFinite ∧ m.e3.IsFinite ∧ m.e4.IsFinite ∧
  m.e5.IsFinite ∧ m.e6.IsFinite ∧ m.e7.IsFinite ∧ m.e8.IsFinite

/-- All sixteen stored elements are finite. -/
def Mat4.FinAll (m : Mat4 K) : Prop :=
  m.e0.IsFinite ∧ m.e1.IsFinite ∧ m.e2.IsFinite ∧ m.e3.IsFinite ∧
  m.e4.IsFinite ∧ m.e5.IsFinite ∧ m.e6.IsFinite ∧ m.e7.IsFinite ∧
  m.e8.IsFinite ∧ m.e9.IsFinite ∧ m.e10.IsFinite ∧ m.e11.IsFinite ∧
  m.e12.IsFinite ∧ m.e13.IsFinite ∧ m.e14.IsFinite ∧ m.e15.IsFinite

/-- Specification-side textbook matrix product: entry `(i, j)` is row `i`
of the left factor dotted with column `j` of the right factor. -/
def matMul3 (x y : Mat3 K) : Mat3 K :=
  ⟨((x.e0.mul y.e0).add (x.e1.mul y.e3)).add (x.e2.mul y.e6),
   ((x.e0.mul y.e1).add (x.e1.mul y.e4)).add (x.e2.mul y.e7),
   ((x.e0.mul y.e2).add (x.e1.mul y.e5)).add (x.e2.mul y.e8),
   ((x.e3.mul y.e0).add (x.e4.mul y.e3)).add (x.e5.mul y.e6),
   ((x.e3.mul y.e1).add (x.e4.mul y.e4)).add (x.e5.mul y.e7),
   ((x.e3.mul y.e2).add (x.e4.mul y.e5)).add (x.e5.mul y.e8),
   ((x.e6.mul y.e0).add (x.e7.mul y.e3)).add (x.e8.mul y.e6),
   ((x.e6.mul y.e1).add (x.e7.mul y.e4)).add (x.e8.mul y.e7),
   ((x.e6.mul y.e2).add (x.e7.mul y.e5)).add (x.e8.mul y.e8)⟩

/-- Model of `Matrix3D.Adjoint`, transcribed verbatim from the source. -/
def adjoint3 (m : Mat3 K) : Mat3 K :=
  let a00 := m.e0; let a01 := m.e1; let a02 := m.e2
  let a10 := m.e3; let a11 := m.e4; let a12 := m.e5
  let a20 := m.e6; let a21 := m.e7; let a22 := m.e8
  ⟨(a11.mul a22).sub (a12.mul a21),
   (a02.mul a21).sub (a01.mul a22),
   (a01.mul a12).sub (a02.mul a11),
   (a12.mul a20).sub (a10.mul a22),
   (a00.mul a22).sub (a02.mul a20),
   (a02.mul a10).sub (a00.mul a12),
   (a10.mul a21).sub (a11.mul a20),
   (a01.mul a20).sub (a00.mul a21),
   (a00.mul a11).sub (a01.mul a10)⟩

/-- Specification-side closed-form inverse: every element of the
adjugate multiplied by the reciprocal of the determinant. -/
def adjInv3 (m : Mat3 K) : Mat3 K :=
  let d := (EFloat.fin 1).div (det3 m)
  let a := adjoint3 m
  ⟨a.e0.mul d, a.e1.mul d, a.e2.mul d, a.e3.mul d, a.e4.mul d,
   a.e5.mul d, a.e6.mul d, a.e7.mul d, a.e8.mul d⟩

/-- The 4×4 identity matrix value. -/
def mat4Id : Mat4 ℚ :=
  ⟨fin 1, fin 0, fin 0, fin 0, fin 0, fin 1, fin 0, fin 0,
   fin 0, fin 0, fin 1, fin 0, fin 0, fin 0, fin 0, fin 1⟩

namespace EFloat

@[simp] theorem add_fin_fin (a b : K) : (fin a).add (fin b) = fin (a + b) := rfl

@[simp] theorem mul_fin_fin (a b : K) : (fin a).mul (fin b) = fin (a * b) := rfl

@[simp] theorem neg_fin (a : K) : (fin a).neg = fin (-a) := rfl

@[simp] theorem sub_fin_fin (a b : K) : (fin a).sub (fin b) = fin (a - b) := by
  simp [EFloat.sub, sub_eq_add_neg]

@[simp] theorem abs_fin (a : K) : (fin a).abs = fin |a| := rfl

omit [LinearOrderedField K] in
@[simp] theorem isInf_fin (a : K) : (fin a : EFloat K).isInf = false := rfl

omit [LinearOrderedField K] in
@[simp] theorem isNaN_fin (a : K) : (fin a : EFloat K).isNaN = false := rfl

@[simp] theorem beq_fin_fin (a b : K) : (fin a).beq (fin b) = decide (a = b) := rfl

@[simp] theorem blt_fin_fin (a b : K) : (fin a).blt (fin b) = decide (a < b) := rfl

theorem div_fin_fin (a : K) {b : K} (hb : b ≠ 0) :
    (fin a).div (fin b) = fin (a / b) := by
  simp [EFloat.div, hb]

theorem mul_comm (a b : EFloat K) : a.mul b = b.mul a := by
  cases a <;> cases b <;> simp only [EFloat.mul] <;> try rfl
  all_goals ring_nf

theorem add_comm (a b : EFloat K) : a.add b = b.add a := by
  cases a <;> cases b <;> simp only [EFloat.add] <;> try rfl
  all_goals ring_nf

theorem neg_mul_left (a b : EFloat K) : (a.neg).mul b = (a.mul b).neg := by
  cases a <;> cases b <;>
    simp only [EFloat.mul, EFloat.neg, apply_ite EFloat.neg, neg_eq_zero, neg_pos] <;>
    try rfl
  case fin.fin p q => rw [neg_mul]
  all_goals
    rename_i p
    rcases lt_trichotomy p 0 with h | h | h
    · simp [apply_ite EFloat.neg, EFloat.neg, h, h.ne, h.not_lt]
    · simp [h, EFloat.neg]
    · simp [apply_ite EFloat.neg, EFloat.neg, h, h.ne.symm, h.not_lt]

theorem mul_neg_right (a b : EFloat K) : a.mul (b.neg) = (a.mul b).neg := by
  rw [EFloat.mul_comm a b.neg, neg_mul_left, EFloat.mul_comm b a]

theorem eq_fin_of_beq (x : EFloat K) (c : K) (h : x.beq (fin c) = true) : x = fin c := by
  cases x with
  | fin q => simp [EFloat.beq] at h; exact congrArg fin h
  | pinf => simp [EFloat.beq] at h
  | ninf => simp [EFloat.beq] at h
  | nan => simp [EFloat.beq] at h

end EFloat

/-- C9: for every in-range index pair `(i, j)` with `i < 3` and `j < 3`,
`Matrix3D.ElementAt` returns zero together with the
matrix-index-out-of-range error, and `Matrix3D.SetElementAt` returns the
same error without writing — the bounds guard `i <= Rows() || j <= Cols()`
fires on every in-range index, so neither accessor ever succeeds there. -/
theorem C9_inRange_accessors_always_fail (m : Mat3 ℚ) (i j : ℕ)
    (hi : i < 3) (hj : j < 3) (value : EFloat ℚ) :
    elementAt3 m i j = (EFloat.fin 0, some Err.matrixOutOfRange) ∧
    setElementAt3 m i j value = (m, some Err.matrixOutOfRange) := by
  have h : i ≤ 3 ∨ j ≤ 3 := Or.inl (by omega)
  constructor
  · unfold elementAt3
    rw [if_pos h]
  · unfold setElementAt3
    rw [if_pos h]

/-- Witness for C9 at the concrete in-range index `(0, 0)`. -/
theorem C9_inRange_accessors_always_fail_witness :
    (0 : ℕ) < 3 ∧
    elementAt3 (mat3Zero (K := ℚ)) 0 0 = (EFloat.fin 0, some Err.matrixOutOfRange) ∧
    setElementAt3 (mat3Zero (K := ℚ)) 0 0 (EFloat.fin 5) =
      (mat3Zero, some Err.matrixOutOfRange) :=
  ⟨by decide, C9_inRange_accessors_always_fail mat3Zero 0 0 (by decide) (by decide) (EFloat.fin 5)⟩

/-- C5: `Transform3D.Set3DRotation` never returns an error — the
`Normalize` error for a zero-length axis and the `SetElements` error are
both discarded, so a zero axis (and likewise a `NaN`/infinite angle,
whose cosine and sine are `NaN`) still yields a `nil` error; the second
conjunct evaluates the call on the zero axis with angle `0`
(`cos 0 = 1`, `sin 0 = 0`), which succeeds and stores a matrix computed
from the unnormalized zero axis. -/
theorem C5_set3DRotation_never_rejects :
    (∀ (msqrt : ℚ → ℚ) (mcos msin : EFloat ℚ → EFloat ℚ) (m : Mat3 ℚ)
      (axis : Vec3 ℚ) (angle : EFloat ℚ),
      (set3DRotation msqrt mcos msin m axis angle).2 = none) ∧
    set3DRotation (K := ℚ) (fun q => q) (fun _ => EFloat.fin 1) (fun _ => EFloat.fin 0)
        mat3Zero ⟨EFloat.fin 0, EFloat.fin 0, EFloat.fin 0⟩ (EFloat.fin 0) =
      (⟨fin 1, fin 0, fin 0, fin 0, fin 1, fin 0, fin 0, fin 0, fin 1⟩, none) := by
  constructor
  · intro msqrt mcos msin m axis angle
    rfl
  · norm_num [set3DRotation, normalize3, length3, Nrm2, setElements3, mat3Zero,
      AreAnyOverflow, IsOverflow, EFloat.abs]

/-- C10: `HomogeneousTransform4D.Set3DTranslation` returns success for a
finite translation vector but leaves the receiver unchanged, because the
translation elements are written into the fresh matrix returned by
`Adjoint()`. -/
theorem C10_set3DTranslation_no_effect (m : Mat4 ℚ) (v : Vec3 ℚ) (hv : v.FinAll) :
    set3DTranslation4D m v = (m, none) := by
  obtain ⟨x, y, z⟩ := v
  obtain ⟨⟨a, rfl⟩, ⟨b, rfl⟩, ⟨c, rfl⟩⟩ := hv
  simp [set3DTranslation4D, setElements4, AreAnyOverflow, IsOverflow]

/-- Witness for C10 at the identity receiver and `v = (5, 6, 7)`. -/
theorem C10_set3DTranslation_no_effect_witness :
    (⟨EFloat.fin 5, EFloat.fin 6, EFloat.fin 7⟩ : Vec3 ℚ).FinAll ∧
    set3DTranslation4D mat4Id ⟨EFloat.fin 5, EFloat.fin 6, EFloat.fin 7⟩ = (mat4Id, none) :=
  ⟨⟨⟨5, rfl⟩, ⟨6, rfl⟩, ⟨7, rfl⟩⟩,
   C10_set3DTranslation_no_effect mat4Id _ ⟨⟨5, rfl⟩, ⟨6, rfl⟩, ⟨7, rfl⟩⟩⟩

/-- C2 (code bug): at the concrete receiver `B` (with `B[1][0] = 1`) and
argument `A` (with `A[0][1] = 1`), `Premultiply` stores `B·A` even
though its documentation and the spec promise `A·B`, and `Postmultiply`
stores `A·B` instead of `B·A`; the two products differ. -/
theorem C2_multiply_orientation_swapped :
    premultiply3
        (⟨fin 0, fin 0, fin 0, fin 1, fin 0, fin 0, fin 0, fin 0, fin 0⟩ : Mat3 ℚ)
        ⟨fin 0, fin 1, fin 0, fin 0, fin 0, fin 0, fin 0, fin 0, fin 0⟩ =
      (matMul3 ⟨fin 0, fin 0, fin 0, fin 1, fin 0, fin 0, fin 0, fin 0, fin 0⟩
        ⟨fin 0, fin 1, fin 0, fin 0, fin 0, fin 0, fin 0, fin 0, fin 0⟩, none) ∧
    postmultiply3
        (⟨fin 0, fin 0, fin 0, fin 1, fin 0, fin 0, fin 0, fin 0, fin 0⟩ : Mat3 ℚ)
        ⟨fin 0, fin 1, fin 0, fin 0, fin 0, fin 0, fin 0, fin 0, fin 0⟩ =
      (matMul3 ⟨fin 0, fin 1, fin 0, fin 0, fin 0, fin 0, fin 0, fin 0, fin 0⟩
        ⟨fin 0, fin 0, fin 0, fin 1, fin 0, fin 0, fin 0, fin 0, fin 0⟩, none) ∧
    matMul3 (⟨fin 0, fin 0, fin 0, fin 1, fin 0, fin 0, fin 0, fin 0, fin 0⟩ : Mat3 ℚ)
        ⟨fin 0, fin 1, fin 0, fin 0, fin 0, fin 0, fin 0, fin 0, fin 0⟩ ≠
      matMul3 ⟨fin 0, fin 1, fin 0, fin 0, fin 0, fin 0, fin 0, fin 0, fin 0⟩
        ⟨fin 0, fin 0, fin 0, fin 1, fin 0, fin 0, fin 0, fin 0, fin 0⟩ := by
  refine ⟨?_, ?_, ?_⟩ <;>
    norm_num [premultiply3, postmultiply3, multiply3, matMul3, AreAnyOverflow, IsOverflow]

/-- C1 (code bug): a two-frame chain whose local orientations both
compute without error.  The global orientation the code returns is the
reversed composition `R_this·R_root` (each loop step stores
`acc·R_frame` because of the swapped `Premultiply`), and it differs from
the claimed product `R_root·R_this`. -/
theorem C1_globalOrientation_composes_reversed :
    getLocalOrientation (CoordSys.child ⟨fin 0, fin 1, fin 0⟩ ⟨fin (-1), fin 0, fin 0⟩
        (CoordSys.root ⟨fin 0, fin 0, fin 1⟩ ⟨fin 0, fin 1, fin 0⟩) : CoordSys ℚ) =
      Except.ok ⟨fin 0, fin 1, fin 0, fin 1, fin 0, fin 0, fin 0, fin 0, fin 1⟩ ∧
    getLocalOrientation (CoordSys.root (⟨fin 0, fin 0, fin 1⟩ : Vec3 ℚ) ⟨fin 0, fin 1, fin 0⟩) =
      Except.ok ⟨fin 0, fin 0, fin 1, fin 0, fin (-1), fin 0, fin (-1), fin 0, fin 0⟩ ∧
    getGlobalOrientation (CoordSys.child ⟨fin 0, fin 1, fin 0⟩ ⟨fin (-1), fin 0, fin 0⟩
        (CoordSys.root ⟨fin 0, fin 0, fin 1⟩ ⟨fin 0, fin 1, fin 0⟩) : CoordSys ℚ) =
      Except.ok (matMul3
        ⟨fin 0, fin 1, fin 0, fin 1, fin 0, fin 0, fin 0, fin 0, fin 1⟩
        ⟨fin 0, fin 0, fin 1, fin 0, fin (-1), fin 0, fin (-1), fin 0, fin 0⟩) ∧
    matMul3 (⟨fin 0, fin 1, fin 0, fin 1, fin 0, fin 0, fin 0, fin 0, fin 1⟩ : Mat3 ℚ)
        ⟨fin 0, fin 0, fin 1, fin 0, fin (-1), fin 0, fin (-1), fin 0, fin 0⟩ ≠
      matMul3 ⟨fin 0, fin 0, fin 1, fin 0, fin (-1), fin 0, fin (-1), fin 0, fin 0⟩
        ⟨fin 0, fin 1, fin 0, fin 1, fin 0, fin 0, fin 0, fin 0, fin 1⟩ := by
  refine ⟨?_, ?_, ?_, ?_⟩ <;>
    norm_num [getGlobalOrientation, globalOrientAux, getLocalOrientation,
      CoordSys.b0, CoordSys.b1, cross3, setElements3, mat3Zero, identity3,
      premultiply3, multiply3, matMul3, AreAnyOverflow, IsOverflow]

/-- C3 counterexample: the receiver `(0, 0, 0)` has no `NaN` component,
yet `Scale(+Inf)` succeeds (the overflow guard only checks for
infinities) and stores `NaN` in every component. -/
theorem C3_scale_stores_nan :
    (⟨EFloat.fin 0, EFloat.fin 0, EFloat.fin 0⟩ : Vec3 ℚ).NoNaN ∧
    scale3 (⟨EFloat.fin 0, EFloat.fin 0, EFloat.fin 0⟩ : Vec3 ℚ) EFloat.pinf =
      (⟨EFloat.nan, EFloat.nan, EFloat.nan⟩, none) := by
  refine ⟨⟨rfl, rfl, rfl⟩, ?_⟩
  norm_num [scale3, EFloat.isNaN, EFloat.mul, AreAnyOverflow, IsOverflow, EFloat.isInf]

/-- C6: `Matrix3D.Invert` fails with the singular-matrix error and
leaves the receiver unchanged exactly when `|Determinant()| < 1e-13`
(the comparison is an IEEE `<`, so a `NaN` determinant falls into the
success branch); otherwise it succeeds and stores the
adjugate-over-determinant closed-form inverse.  The second conjunct is
the claim's all-zero instance, whose determinant is exactly `0`. -/
theorem C6_invert_singular_threshold (m : Mat3 ℚ) :
    (invert3 m = if (det3 m).abs.blt tol13 = true then (m, some Err.singularMatrix)
      else (adjInv3 m, none)) ∧
    invert3 (mat3Zero (K := ℚ)) = (mat3Zero, some Err.singularMatrix) := by
  constructor
  · simp only [invert3, det3, adjInv3, adjoint3]
    split_ifs with h
    · rfl
    · simp only [EFloat.sub, Prod.mk.injEq, Mat3.mk.injEq, and_true]
      refine ⟨?_, ?_, ?_, ?_, ?_, ?_, ?_, ?_, ?_⟩ <;>
        simp [EFloat.mul_comm, EFloat.add_comm, EFloat.neg_mul_left, EFloat.mul_neg_right]
  · norm_num [invert3, mat3Zero, EFloat.abs, EFloat.mul, EFloat.add, EFloat.neg,
      EFloat.sub, tol13, EFloat.blt]

/-- C8 counterexample: with the identity matrix (which passes the
near-singularity gate) and the vector `(+Inf, 0, 0)`, the transformed
homogeneous `w`-component is non-zero, yet the call returns the overflow
error — not `DivideByZero` — because the overflow guard inside
`MatrixTransform4D` fires first. -/
theorem C8_overflow_preempts_divideByZero :
    isNearSingular4 mat4Id tol12 = (false, none) ∧
    ((gemv4 mat4Id ⟨EFloat.pinf, EFloat.fin 0, EFloat.fin 0, EFloat.fin 1⟩).w.beq
      (EFloat.fin 0)) = false ∧
    homogeneousMatrixTransform4D ⟨EFloat.pinf, EFloat.fin 0, EFloat.fin 0⟩ mat4Id =
      (⟨EFloat.pinf, EFloat.fin 0, EFloat.fin 0⟩, some Err.overflow) := by
  refine ⟨?_, ?_, ?_⟩ <;>
    norm_num [homogeneousMatrixTransform4D, matrixTransform4D, isNearSingular4, det4,
      mat4Id, tol12, IsInvalidTolerance, EFloat.abs, EFloat.ble, gemv4, EFloat.mul,
      EFloat.add, AreAnyOverflow, IsOverflow, EFloat.isInf, EFloat.beq]

/-- C8 (amended): when the 4×4 matrix passes the near-singularity gate
and no component of `M·(x, y, z, 1)` is infinite,
`HomogeneousMatrixTransform4D` returns the divide-by-zero error whenever
the transformed `w`-component is non-zero (when a component overflows to
infinity, the overflow error preempts it — see the counterexample); and
whenever the call succeeds, the transformed `w`-component was exactly
zero and the stored components are the other components divided by that
zero `w`. -/
theorem C8_success_requires_zero_w (v : Vec3 ℚ) (m : Mat4 ℚ) :
    (isNearSingular4 m tol12 = (false, none) →
      AreAnyOverflow [(gemv4 m ⟨v.x, v.y, v.z, EFloat.fin 1⟩).x,
        (gemv4 m ⟨v.x, v.y, v.z, EFloat.fin 1⟩).y,
        (gemv4 m ⟨v.x, v.y, v.z, EFloat.fin 1⟩).z,
        (gemv4 m ⟨v.x, v.y, v.z, EFloat.fin 1⟩).w] = false →
      (gemv4 m ⟨v.x, v.y, v.z, EFloat.fin 1⟩).w.beq (EFloat.fin 0) = false →
      homogeneousMatrixTransform4D v m = (v, some Err.divideByZero)) ∧
    (∀ v2 : Vec3 ℚ, homogeneousMatrixTransform4D v m = (v2, none) →
      (gemv4 m ⟨v.x, v.y, v.z, EFloat.fin 1⟩).w = EFloat.fin 0 ∧
      v2 = ⟨(gemv4 m ⟨v.x, v.y, v.z, EFloat.fin 1⟩).x.div
              (gemv4 m ⟨v.x, v.y, v.z, EFloat.fin 1⟩).w,
            (gemv4 m ⟨v.x, v.y, v.z, EFloat.fin 1⟩).y.div
              (gemv4 m ⟨v.x, v.y, v.z, EFloat.fin 1⟩).w,
            (gemv4 m ⟨v.x, v.y, v.z, EFloat.fin 1⟩).z.div
              (gemv4 m ⟨v.x, v.y, v.z, EFloat.fin 1⟩).w⟩) := by
  constructor
  · intro h1 h2 h3
    simp only [homogeneousMatrixTransform4D, matrixTransform4D, h1, h2, h3]
    simp [h3]
  · intro v2 h
    simp only [homogeneousMatrixTransform4D, matrixTransform4D] at h
    rcases hns : isNearSingular4 m tol12 with ⟨b, oe⟩
    rw [hns] at h
    rcases oe with - | e
    · cases b
      · rcases hov : AreAnyOverflow [(gemv4 m ⟨v.x, v.y, v.z, EFloat.fin 1⟩).x,
          (gemv4 m ⟨v.x, v.y, v.z, EFloat.fin 1⟩).y,
          (gemv4 m ⟨v.x, v.y, v.z, EFloat.fin 1⟩).z,
          (gemv4 m ⟨v.x, v.y, v.z, EFloat.fin 1⟩).w] with - | -
        · simp only [Bool.false_eq_true, if_false, hov] at h
          rcases hw : (gemv4 m ⟨v.x, v.y, v.z, EFloat.fin 1⟩).w.beq (EFloat.fin 0) with - | -
          · simp [hw] at h
          · simp only [hw, Bool.not_true, Bool.false_eq_true, if_false] at h
            rcases hdv : AreAnyOverflow
                [(gemv4 m ⟨v.x, v.y, v.z, EFloat.fin 1⟩).x.div
                  (gemv4 m ⟨v.x, v.y, v.z, EFloat.fin 1⟩).w,
                 (gemv4 m ⟨v.x, v.y, v.z, EFloat.fin 1⟩).y.div
                  (gemv4 m ⟨v.x, v.y, v.z, EFloat.fin 1⟩).w,
                 (gemv4 m ⟨v.x, v.y, v.z, EFloat.fin 1⟩).z.div
                  (gemv4 m ⟨v.x, v.y, v.z, EFloat.fin 1⟩).w] with - | -
            · simp only [hdv, Bool.false_eq_true, if_false, Prod.mk.injEq] at h
              exact ⟨EFloat.eq_fin_of_beq _ _ hw, h.1.symm⟩
            · simp [hdv] at h
        · simp [hov] at h
      · simp at h
    · simp at h

/-- Witness for C8 at `v = (1, 2, 3)` and the identity matrix, for which
the transformed `w`-component is `1`. -/
theorem C8_success_requires_zero_w_witness :
    homogeneousMatrixTransform4D (⟨EFloat.fin 1, EFloat.fin 2, EFloat.fin 3⟩ : Vec3 ℚ) mat4Id =
      (⟨EFloat.fin 1, EFloat.fin 2, EFloat.fin 3⟩, some Err.divideByZero) :=
  (C8_success_requires_zero_w ⟨EFloat.fin 1, EFloat.fin 2, EFloat.fin 3⟩ mat4Id).1
    (by norm_num [isNearSingular4, det4, mat4Id, tol12, IsInvalidTolerance,
      EFloat.abs, EFloat.ble, EFloat.blt, EFloat.beq])
    (by norm_num [gemv4, mat4Id, AreAnyOverflow, IsOverflow])
    (by norm_num [gemv4, mat4Id, EFloat.beq])

theorem nrm2_fin_exists (msqrt : ℚ → ℚ) (a b : ℚ) :
    ∃ r : ℚ, Nrm2 msqrt (fin a) (fin b) = fin r := by
  unfold Nrm2
  by_cases h : a = 0 ∧ b = 0
  · refine ⟨0, ?_⟩
    simp [EFloat.beq, h.1, h.2]
  · have hu : max |a| |b| ≠ 0 := by
      rcases not_and_or.mp h with h1 | h1
      · exact (lt_of_lt_of_le (abs_pos.mpr h1) (le_max_left _ _)).ne.symm
      · exact (lt_of_lt_of_le (abs_pos.mpr h1) (le_max_right _ _)).ne.symm
    have hcond : ((fin a).beq (fin 0) && (fin b).beq (fin 0)) = false := by
      rcases not_and_or.mp h with h1 | h1 <;> simp [EFloat.beq, h1]
    rw [hcond]
    simp only [EFloat.abs_fin, EFloat.maxE, EFloat.minE, Bool.false_eq_true, if_false]
    rw [EFloat.div_fin_fin _ hu]
    have hpos : ¬((1 : ℚ) + min |a| |b| / max |a| |b| * (min |a| |b| / max |a| |b|) < 0) := by
      have h0 : (0:ℚ) ≤ 1 + min |a| |b| / max |a| |b| * (min |a| |b| / max |a| |b|) := by
        have : (0:ℚ) ≤ min |a| |b| / max |a| |b| * (min |a| |b| / max |a| |b|) :=
          mul_self_nonneg _
        linarith
      exact not_lt.mpr h0
    refine ⟨max |a| |b| * msqrt (1 + min |a| |b| / max |a| |b| * (min |a| |b| / max |a| |b|)), ?_⟩
    simp [sqrtE, hpos]

theorem length3_fin_exists (msqrt : ℚ → ℚ) (a b c : ℚ) :
    ∃ r : ℚ, length3 msqrt ⟨fin a, fin b, fin c⟩ = (fin r, none) := by
  obtain ⟨r1, h1⟩ := nrm2_fin_exists msqrt a b
  obtain ⟨r2, h2⟩ := nrm2_fin_exists msqrt r1 c
  refine ⟨r2, ?_⟩
  simp [length3, h1, h2, AreAnyOverflow, IsOverflow]

theorem normalize3_ok_noNaN (msqrt : ℚ → ℚ) (a b c : ℚ) (v2 : Vec3 ℚ)
    (h : normalize3 msqrt ⟨fin a, fin b, fin c⟩ = (v2, none)) : v2.NoNaN := by
  obtain ⟨r, hr⟩ := length3_fin_exists msqrt a b c
  simp only [normalize3, hr] at h
  by_cases h0 : |r| = 0
  · simp [EFloat.abs, EFloat.beq, h0] at h
  · have hr0 : r ≠ 0 := fun hh => h0 (by simp [hh])
    simp only [EFloat.abs_fin, EFloat.beq_fin_fin, h0, decide_False, Bool.false_eq_true,
      if_false, EFloat.div_fin_fin _ hr0, AreAnyOverflow, IsOverflow, List.any_cons,
      List.any_nil, EFloat.isInf_fin, Bool.or_self, Prod.mk.injEq, and_true] at h
    rw [← h]
    exact ⟨rfl, rfl, rfl⟩

/-- Anatomy of a successful `HomogeneousMatrixTransform4D` call: the
near-singularity gate passed, no product component was infinite, the
`w`-component compared equal to zero, no quotient was infinite, and the
stored vector is the componentwise quotient by `w`. -/
theorem homT4D_ok_anatomy (v : Vec3 ℚ) (m : Mat4 ℚ) (v2 : Vec3 ℚ)
    (h : homogeneousMatrixTransform4D v m = (v2, none)) :
    isNearSingular4 m tol12 = (false, none) ∧
    AreAnyOverflow [(gemv4 m ⟨v.x, v.y, v.z, EFloat.fin 1⟩).x,
      (gemv4 m ⟨v.x, v.y, v.z, EFloat.fin 1⟩).y,
      (gemv4 m ⟨v.x, v.y, v.z, EFloat.fin 1⟩).z,
      (gemv4 m ⟨v.x, v.y, v.z, EFloat.fin 1⟩).w] = false ∧
    (gemv4 m ⟨v.x, v.y, v.z, EFloat.fin 1⟩).w.beq (EFloat.fin 0) = true ∧
    AreAnyOverflow [(gemv4 m ⟨v.x, v.y, v.z, EFloat.fin 1⟩).x.div
        (gemv4 m ⟨v.x, v.y, v.z, EFloat.fin 1⟩).w,
      (gemv4 m ⟨v.x, v.y, v.z, EFloat.fin 1⟩).y.div
        (gemv4 m ⟨v.x, v.y, v.z, EFloat.fin 1⟩).w,
      (gemv4 m ⟨v.x, v.y, v.z, EFloat.fin 1⟩).z.div
        (gemv4 m ⟨v.x, v.y, v.z, EFloat.fin 1⟩).w] = false ∧
    v2 = ⟨(gemv4 m ⟨v.x, v.y, v.z, EFloat.fin 1⟩).x.div
            (gemv4 m ⟨v.x, v.y, v.z, EFloat.fin 1⟩).w,
          (gemv4 m ⟨v.x, v.y, v.z, EFloat.fin 1⟩).y.div
            (gemv4 m ⟨v.x, v.y, v.z, EFloat.fin 1⟩).w,
          (gemv4 m ⟨v.x, v.y, v.z, EFloat.fin 1⟩).z.div
            (gemv4 m ⟨v.x, v.y, v.z, EFloat.fin 1⟩).w⟩ := by
  simp only [homogeneousMatrixTransform4D, matrixTransform4D] at h
  rcases hns : isNearSingular4 m tol12 with ⟨b, oe⟩
  rw [hns] at h
  rcases oe with - | e
  · cases b
    · rcases hov : AreAnyOverflow [(gemv4 m ⟨v.x, v.y, v.z, EFloat.fin 1⟩).x,
        (gemv4 m ⟨v.x, v.y, v.z, EFloat.fin 1⟩).y,
        (gemv4 m ⟨v.x, v.y, v.z, EFloat.fin 1⟩).z,
        (gemv4 m ⟨v.x, v.y, v.z, EFloat.fin 1⟩).w] with - | -
      · simp only [Bool.false_eq_true, if_false, hov] at h
        rcases hw : (gemv4 m ⟨v.x, v.y, v.z, EFloat.fin 1⟩).w.beq (EFloat.fin 0) with - | -
        · simp [hw] at h
        · simp only [hw, Bool.not_true, Bool.false_eq_true, if_false] at h
          rcases hdv : AreAnyOverflow
              [(gemv4 m ⟨v.x, v.y, v.z, EFloat.fin 1⟩).x.div
                (gemv4 m ⟨v.x, v.y, v.z, EFloat.fin 1⟩).w,
               (gemv4 m ⟨v.x, v.y, v.z, EFloat.fin 1⟩).y.div
                (gemv4 m ⟨v.x, v.y, v.z, EFloat.fin 1⟩).w,
               (gemv4 m ⟨v.x, v.y, v.z, EFloat.fin 1⟩).z.div
                (gemv4 m ⟨v.x, v.y, v.z, EFloat.fin 1⟩).w] with - | -
          · simp only [hdv, Bool.false_eq_true, if_false, Prod.mk.injEq] at h
            exact ⟨rfl, rfl, rfl, rfl, h.1.symm⟩
          · simp [hdv] at h
      · simp [hov] at h
    · simp at h
  · simp at h

/-- Rational-level value of the 4×4 determinant formula. -/
def det4Q (a00 a01 a02 a03 a10 a11 a12 a13 a20 a21 a22 a23 a30 a31 a32 a33 : ℚ) : ℚ :=
  let b0 := a00 * a11 - a01 * a10
  let b1 := a00 * a12 - a02 * a10
  let b2 := a01 * a12 - a02 * a11
  let b3 := a20 * a31 - a21 * a30
  let b4 := a20 * a32 - a22 * a30
  let b5 := a21 * a32 - a22 * a31
  let b6 := a00 * b5 - a01 * b4 + a02 * b3
  let b7 := a10 * b5 - a11 * b4 + a12 * b3
  let b8 := a20 * b2 - a21 * b1 + a22 * b0
  let b9 := a30 * b2 - a31 * b1 + a32 * b0
  a13 * b6 - a03 * b7 + a33 * b8 - a23 * b9

theorem det4_fin (a00 a01 a02 a03 a10 a11 a12 a13 a20 a21 a22 a23 a30 a31 a32 a33 : ℚ) :
    det4 ⟨fin a00, fin a01, fin a02, fin a03, fin a10, fin a11, fin a12, fin a13,
      fin a20, fin a21, fin a22, fin a23, fin a30, fin a31, fin a32, fin a33⟩ =
    fin (det4Q a00 a01 a02 a03 a10 a11 a12 a13 a20 a21 a22 a23 a30 a31 a32 a33) := by
  simp only [det4, EFloat.mul_fin_fin, EFloat.sub_fin_fin, EFloat.add_fin_fin]
  exact congrArg fin (by unfold det4Q; ring)

theorem div_fin_zero_not_inf {p : ℚ} (h : ((fin p).div (fin 0)).isInf = false) : p = 0 := by
  by_contra hp
  rcases lt_trichotomy p 0 with hlt | heq | hgt
  · simp [EFloat.div, hp, hlt.not_lt, EFloat.isInf] at h
  · exact hp heq
  · simp [EFloat.div, hp, hgt, EFloat.isInf] at h

theorem homT4D_fin_never_ok (x y z : ℚ) (m : Mat4 ℚ) (hm : m.FinAll) (v2 : Vec3 ℚ)
    (h : homogeneousMatrixTransform4D ⟨fin x, fin y, fin z⟩ m = (v2, none)) : False := by
  obtain ⟨f0, f1, f2, f3, f4, f5, f6, f7, f8, f9, f10, f11, f12, f13, f14, f15⟩ := m
  obtain ⟨⟨a00, rfl⟩, ⟨a01, rfl⟩, ⟨a02, rfl⟩, ⟨a03, rfl⟩, ⟨a10, rfl⟩, ⟨a11, rfl⟩,
    ⟨a12, rfl⟩, ⟨a13, rfl⟩, ⟨a20, rfl⟩, ⟨a21, rfl⟩, ⟨a22, rfl⟩, ⟨a23, rfl⟩,
    ⟨a30, rfl⟩, ⟨a31, rfl⟩, ⟨a32, rfl⟩, ⟨a33, rfl⟩⟩ := hm
  obtain ⟨hgate, -, hw, hdv, -⟩ := homT4D_ok_anatomy _ _ _ h
  simp only [gemv4, EFloat.mul_fin_fin, EFloat.add_fin_fin] at hw hdv
  rw [EFloat.beq_fin_fin, decide_eq_true_eq] at hw
  rw [hw] at hdv
  simp only [AreAnyOverflow, List.any_cons, List.any_nil, Bool.or_eq_false_iff,
    IsOverflow] at hdv
  obtain ⟨hP, hQ, hR, -⟩ := hdv
  have hP0 := div_fin_zero_not_inf hP
  have hQ0 := div_fin_zero_not_inf hQ
  have hR0 := div_fin_zero_not_inf hR
  simp only [isNearSingular4, IsInvalidTolerance, tol12, EFloat.blt_fin_fin,
    det4_fin, EFloat.abs_fin, EFloat.ble, EFloat.beq_fin_fin] at hgate
  norm_num at hgate
  obtain ⟨hlt, hne⟩ := hgate
  have hdet0 : det4Q a00 a01 a02 a03 a10 a11 a12 a13 a20 a21 a22 a23 a30 a31 a32 a33 = 0 := by
    unfold det4Q
    linear_combination
      (-(a10 * (a21 * a32 - a22 * a31) - a11 * (a20 * a32 - a22 * a30) +
          a12 * (a20 * a31 - a21 * a30))) * hP0 +
      (a00 * (a21 * a32 - a22 * a31) - a01 * (a20 * a32 - a22 * a30) +
          a02 * (a20 * a31 - a21 * a30)) * hQ0 +
      (-(a00 * (a11 * a32 - a12 * a31) - a01 * (a10 * a32 - a12 * a30) +
          a02 * (a10 * a31 - a11 * a30))) * hR0 +
      (a00 * (a11 * a22 - a12 * a21) - a01 * (a10 * a22 - a12 * a20) +
          a02 * (a10 * a21 - a11 * a20)) * hw
  rw [hdet0] at hlt hne
  norm_num at hlt

theorem matrixTransform3D_fin_ok_noNaN (a b c : ℚ) (m3 : Mat3 ℚ) (hm : m3.FinAll)
    (v2 : Vec3 ℚ) (h : matrixTransform3D ⟨fin a, fin b, fin c⟩ m3 = (v2, none)) :
    v2.NoNaN := by
  obtain ⟨g0, g1, g2, g3, g4, g5, g6, g7, g8⟩ := m3
  obtain ⟨⟨b00, rfl⟩, ⟨b01, rfl⟩, ⟨b02, rfl⟩, ⟨b10, rfl⟩, ⟨b11, rfl⟩, ⟨b12, rfl⟩,
    ⟨b20, rfl⟩, ⟨b21, rfl⟩, ⟨b22, rfl⟩⟩ := hm
  simp only [matrixTransform3D] at h
  rcases hns : isNearSingular3 ⟨fin b00, fin b01, fin b02, fin b10, fin b11, fin b12,
      fin b20, fin b21, fin b22⟩ tol12 with ⟨bb, oe⟩
  rw [hns] at h
  rcases oe with - | e
  · cases bb
    · simp only [Bool.false_eq_true, if_false, gemv3, EFloat.mul_fin_fin,
        EFloat.add_fin_fin, AreAnyOverflow, List.any_cons, List.any_nil,
        IsOverflow, EFloat.isInf_fin, Bool.or_self, Bool.false_eq_true, if_false,
        Prod.mk.injEq, and_true] at h
      rw [← h]
      exact ⟨rfl, rfl, rfl⟩
    · simp at h
  · simp at h

/-- C3 (amended): for a receiver, argument vector, scale factor and
matrix arguments whose stored values are all finite, every mutating
operation (`Add`, `Sub`, `Scale`, `Normalize`, `Negate`,
`MatrixTransform3D`, `HomogeneousMatrixTransform4D`) that returns
success leaves no `NaN` in the receiver.  (With merely non-`NaN` inputs
this fails — see the counterexample: the guards check only for
infinities, so `0·Inf = NaN` is stored silently.  The last conjunct
holds because a successful `HomogeneousMatrixTransform4D` is impossible
for finite inputs: the near-singular gate forces a non-zero determinant,
while success would force `M·(x,y,z,1) = 0`.) -/
theorem C3_finite_inputs_no_nan (msqrt : ℚ → ℚ) (v w : Vec3 ℚ) (f : EFloat ℚ)
    (m3 : Mat3 ℚ) (m4 : Mat4 ℚ) (hv : v.FinAll) (hw : w.FinAll) (hf : f.IsFinite)
    (hm3 : m3.FinAll) (hm4 : m4.FinAll) :
    ((add3 v w).2 = none → (add3 v w).1.NoNaN) ∧
    ((sub3 v w).2 = none → (sub3 v w).1.NoNaN) ∧
    ((scale3 v f).2 = none → (scale3 v f).1.NoNaN) ∧
    ((normalize3 msqrt v).2 = none → (normalize3 msqrt v).1.NoNaN) ∧
    (negate3 v).NoNaN ∧
    ((matrixTransform3D v m3).2 = none → (matrixTransform3D v m3).1.NoNaN) ∧
    ((homogeneousMatrixTransform4D v m4).2 = none →
      (homogeneousMatrixTransform4D v m4).1.NoNaN) := by
  obtain ⟨vx, vy, vz⟩ := v
  obtain ⟨⟨a, rfl⟩, ⟨b, rfl⟩, ⟨c, rfl⟩⟩ := hv
  obtain ⟨wx, wy, wz⟩ := w
  obtain ⟨⟨d, rfl⟩, ⟨e, rfl⟩, ⟨g, rfl⟩⟩ := hw
  obtain ⟨q, rfl⟩ := hf
  refine ⟨?_, ?_, ?_, ?_, ?_, ?_, ?_⟩
  · intro _
    simp [add3, AreAnyOverflow, IsOverflow, Vec3.NoNaN]
  · intro _
    simp [sub3, AreAnyOverflow, IsOverflow, Vec3.NoNaN]
  · intro _
    simp [scale3, AreAnyOverflow, IsOverflow, Vec3.NoNaN, EFloat.isNaN]
  · intro hok
    exact normalize3_ok_noNaN msqrt a b c _ (by rw [← hok])
  · simp [negate3, Vec3.NoNaN]
  · intro hok
    exact matrixTransform3D_fin_ok_noNaN a b c m3 hm3 _ (by rw [← hok])
  · intro hok
    exact absurd (rfl : (none : Option Err) = none)
      (fun _ => homT4D_fin_never_ok a b c m4 hm4 _ (by rw [← hok]))

/-- Witness for C3 at concrete finite inputs. -/
theorem C3_finite_inputs_no_nan_witness :
    ((add3 (⟨fin 1, fin 2, fin 3⟩ : Vec3 ℚ) ⟨fin 4, fin 5, fin 6⟩).2 = none →
      (add3 (⟨fin 1, fin 2, fin 3⟩ : Vec3 ℚ) ⟨fin 4, fin 5, fin 6⟩).1.NoNaN) ∧
    ((sub3 (⟨fin 1, fin 2, fin 3⟩ : Vec3 ℚ) ⟨fin 4, fin 5, fin 6⟩).2 = none →
      (sub3 (⟨fin 1, fin 2, fin 3⟩ : Vec3 ℚ) ⟨fin 4, fin 5, fin 6⟩).1.NoNaN) ∧
    ((scale3 (⟨fin 1, fin 2, fin 3⟩ : Vec3 ℚ) (fin 2)).2 = none →
      (scale3 (⟨fin 1, fin 2, fin 3⟩ : Vec3 ℚ) (fin 2)).1.NoNaN) ∧
    ((normalize3 (fun q => q) (⟨fin 1, fin 2, fin 3⟩ : Vec3 ℚ)).2 = none →
      (normalize3 (fun q => q) (⟨fin 1, fin 2, fin 3⟩ : Vec3 ℚ)).1.NoNaN) ∧
    (negate3 (⟨fin 1, fin 2, fin 3⟩ : Vec3 ℚ)).NoNaN ∧
    ((matrixTransform3D (⟨fin 1, fin 2, fin 3⟩ : Vec3 ℚ)
        ⟨fin 1, fin 0, fin 0, fin 0, fin 1, fin 0, fin 0, fin 0, fin 1⟩).2 = none →
      (matrixTransform3D (⟨fin 1, fin 2, fin 3⟩ : Vec3 ℚ)
        ⟨fin 1, fin 0, fin 0, fin 0, fin 1, fin 0, fin 0, fin 0, fin 1⟩).1.NoNaN) ∧
    ((homogeneousMatrixTransform4D (⟨fin 1, fin 2, fin 3⟩ : Vec3 ℚ) mat4Id).2 = none →
      (homogeneousMatrixTransform4D (⟨fin 1, fin 2, fin 3⟩ : Vec3 ℚ) mat4Id).1.NoNaN) :=
  C3_finite_inputs_no_nan (fun q => q) ⟨fin 1, fin 2, fin 3⟩ ⟨fin 4, fin 5, fin 6⟩
    (fin 2) ⟨fin 1, fin 0, fin 0, fin 0, fin 1, fin 0, fin 0, fin 0, fin 1⟩ mat4Id
    ⟨⟨1, rfl⟩, ⟨2, rfl⟩, ⟨3, rfl⟩⟩ ⟨⟨4, rfl⟩, ⟨5, rfl⟩, ⟨6, rfl⟩⟩ ⟨2, rfl⟩
    ⟨⟨1, rfl⟩, ⟨0, rfl⟩, ⟨0, rfl⟩, ⟨0, rfl⟩, ⟨1, rfl⟩, ⟨0, rfl⟩, ⟨0, rfl⟩, ⟨0, rfl⟩, ⟨1, rfl⟩⟩
    ⟨⟨1, rfl⟩, ⟨0, rfl⟩, ⟨0, rfl⟩, ⟨0, rfl⟩, ⟨0, rfl⟩, ⟨1, rfl⟩, ⟨0, rfl⟩, ⟨0, rfl⟩,
     ⟨0, rfl⟩, ⟨0, rfl⟩, ⟨1, rfl⟩, ⟨0, rfl⟩, ⟨0, rfl⟩, ⟨0, rfl⟩, ⟨0, rfl⟩, ⟨1, rfl⟩⟩


/-- Euclidean length of a 3-vector of reals. -/
noncomputable def enorm (x y z : ℝ) : ℝ := Real.sqrt (x ^ 2 + y ^ 2 + z ^ 2)

theorem nrm2_fin_real (a b : ℝ) :
    Nrm2 Real.sqrt (fin a) (fin b) = fin (Real.sqrt (a ^ 2 + b ^ 2)) := by
  unfold Nrm2
  by_cases h : a = 0 ∧ b = 0
  · obtain ⟨rfl, rfl⟩ := h
    simp [EFloat.beq]
  · have hu0 : (0:ℝ) < max |a| |b| := by
      rcases not_and_or.mp h with h1 | h1
      · exact lt_of_lt_of_le (abs_pos.mpr h1) (le_max_left _ _)
      · exact lt_of_lt_of_le (abs_pos.mpr h1) (le_max_right _ _)
    have hu : max |a| |b| ≠ 0 := hu0.ne.symm
    have hcond : ((fin a).beq (fin 0) && (fin b).beq (fin 0)) = false := by
      rcases not_and_or.mp h with h1 | h1 <;> simp [EFloat.beq, h1]
    rw [hcond]
    simp only [EFloat.abs_fin, EFloat.maxE, EFloat.minE, Bool.false_eq_true, if_false]
    rw [EFloat.div_fin_fin _ hu]
    have hpos : ¬((1 : ℝ) + min |a| |b| / max |a| |b| * (min |a| |b| / max |a| |b|) < 0) := by
      have h0 : (0:ℝ) ≤ min |a| |b| / max |a| |b| * (min |a| |b| / max |a| |b|) :=
        mul_self_nonneg _
      linarith
    simp only [EFloat.add_fin_fin, EFloat.mul_fin_fin, sqrtE, hpos, if_false,
      EFloat.mul_fin_fin]
    refine congrArg fin ?_
    have key : max |a| |b| * Real.sqrt (1 + min |a| |b| / max |a| |b| *
        (min |a| |b| / max |a| |b|)) =
        Real.sqrt ((max |a| |b|) ^ 2 * (1 + min |a| |b| / max |a| |b| *
          (min |a| |b| / max |a| |b|))) := by
      rw [Real.sqrt_mul (sq_nonneg _), Real.sqrt_sq hu0.le]
    rw [key]
    refine congrArg Real.sqrt ?_
    have : (max |a| |b|) ^ 2 * (1 + min |a| |b| / max |a| |b| *
        (min |a| |b| / max |a| |b|)) = (max |a| |b|) ^ 2 + (min |a| |b|) ^ 2 := by
      field_simp
      ring
    rw [this]
    rcases le_total |a| |b| with hab | hab
    · rw [max_eq_right hab, min_eq_left hab, sq_abs, sq_abs]
      ring
    · rw [max_eq_left hab, min_eq_right hab, sq_abs, sq_abs]

theorem length3_fin_real (a b c : ℝ) :
    length3 Real.sqrt ⟨fin a, fin b, fin c⟩ = (fin (enorm a b c), none) := by
  have h1 := nrm2_fin_real a b
  have h2 := nrm2_fin_real (Real.sqrt (a ^ 2 + b ^ 2)) c
  rw [Real.sq_sqrt (by positivity)] at h2
  simp only [length3, h1, h2, AreAnyOverflow, List.any_cons, List.any_nil,
    IsOverflow, EFloat.isInf_fin, Bool.or_self, Bool.false_eq_true, if_false]
  have : a ^ 2 + b ^ 2 + c ^ 2 = a ^ 2 + (b ^ 2 + c ^ 2) := by ring
  simp [enorm]

/-- Model of the external `math.Atan2` on finite arguments: the standard
quadrant-aware arctangent (`atan2(0, 0) = 0`, matching Go on unsigned
zeros). -/
noncomputable def atan2R (y x : ℝ) : ℝ :=
  if 0 < x then Real.arctan (y / x)
  else if x < 0 then
    (if 0 ≤ y then Real.arctan (y / x) + Real.pi else Real.arctan (y / x) - Real.pi)
  else
    (if 0 < y then Real.pi / 2 else if y < 0 then -(Real.pi / 2) else 0)

/-- Model of `math.Atan2` lifted to extended floats, with the IEEE
special cases for infinite and `NaN` arguments (signed zeros collapse to
the single zero of the model). -/
noncomputable def atan2E : EFloat ℝ → EFloat ℝ → EFloat ℝ
  | .nan, _ => .nan
  | _, .nan => .nan
  | .fin y, .fin x => .fin (atan2R y x)
  | .pinf, .pinf => .fin (Real.pi / 4)
  | .pinf, .ninf => .fin (3 * Real.pi / 4)
  | .ninf, .pinf => .fin (-(Real.pi / 4))
  | .ninf, .ninf => .fin (-(3 * Real.pi / 4))
  | .pinf, .fin _ => .fin (Real.pi / 2)
  | .ninf, .fin _ => .fin (-(Real.pi / 2))
  | .fin _, .pinf => .fin 0
  | .fin _, .ninf => .fin Real.pi

/-- The value `AngleTo` computes, as a real formula: Kahan's `atan2`
variant `2·atan2(‖|v|·w − |w|·v‖, ‖|v|·w + |w|·v‖)` with Euclidean
norms. -/
noncomputable def kahanAtan2Angle (vx vy vz wx wy wz : ℝ) : ℝ :=
  let lv := enorm vx vy vz
  let lu := enorm wx wy wz
  2 * atan2R
    (enorm (wx * lv - vx * lu) (wy * lv - vy * lu) (wz * lv - vz * lu))
    (enorm (wx * lv + vx * lu) (wy * lv + vy * lu) (wz * lv + vz * lu))

theorem angleTo3_fin (vx vy vz wx wy wz : ℝ) :
    angleTo3 Real.sqrt atan2E ⟨fin vx, fin vy, fin vz⟩ ⟨fin wx, fin wy, fin wz⟩ =
      (fin (kahanAtan2Angle vx vy vz wx wy wz), none) := by
  simp only [angleTo3, length3_fin_real, scale3, EFloat.isNaN, Bool.false_eq_true,
    if_false, EFloat.mul_fin_fin, AreAnyOverflow, List.any_cons, List.any_nil,
    IsOverflow, EFloat.isInf_fin, Bool.or_self, sub3, add3, EFloat.sub_fin_fin,
    EFloat.add_fin_fin]
  simp only [atan2E, EFloat.mul_fin_fin]
  rfl

/-- The angle formula exactly as the spec words it (for the refinement
comparison): `a = max(|v|,|w|)`, `b = min(|v|,|w|)`, `c = |v-w|`,
`μ = b-(a-c)` if `c>b` else `c-(a-b)`,
`t = ((a-b-c)·μ) / ((a+b+c)·(a-c+b))`, result `2·atan(sqrt(t))`.
The square root of a negative `t` is `NaN` in IEEE arithmetic, so the
result is `NaN` when `t < 0`. -/
noncomputable def kahanSpecAngle (vx vy vz wx wy wz : ℝ) : EFloat ℝ :=
  let a := max (enorm vx vy vz) (enorm wx wy wz)
  let b := min (enorm vx vy vz) (enorm wx wy wz)
  let c := enorm (vx - wx) (vy - wy) (vz - wz)
  let m := if b < c then b - (a - c) else c - (a - b)
  let t := ((a - b - c) * m) / ((a + b + c) * ((a - c) + b))
  if t < 0 then .nan else .fin (2 * Real.arctan (Real.sqrt t))

theorem kahanSpecAngle_unit_axes : kahanSpecAngle 1 0 0 0 1 0 = EFloat.nan := by
  have hs2 : Real.sqrt 2 * Real.sqrt 2 = 2 := Real.mul_self_sqrt (by norm_num)
  have hlt : (1:ℝ) < Real.sqrt 2 := by
    have h := Real.sqrt_lt_sqrt (by norm_num : (0:ℝ) ≤ 1) (by norm_num : (1:ℝ) < 2)
    rwa [Real.sqrt_one] at h
  have e1 : enorm 1 0 0 = 1 := by
    unfold enorm
    norm_num [Real.sqrt_one]
  have e2 : enorm 0 1 0 = 1 := by
    unfold enorm
    norm_num [Real.sqrt_one]
  have ec : enorm (1 - 0) (0 - 1) (0 - 0) = Real.sqrt 2 := by
    unfold enorm
    norm_num
  simp only [kahanSpecAngle, e1, e2, ec, max_self, min_self]
  rw [if_pos hlt]
  have hN : ((1:ℝ) - 1 - Real.sqrt 2) * (1 - (1 - Real.sqrt 2)) = -2 := by
    linear_combination -hs2
  have hD : ((1:ℝ) + 1 + Real.sqrt 2) * ((1 - Real.sqrt 2) + 1) = 2 := by
    linear_combination -hs2
  rw [hN, hD]
  norm_num

theorem enorm_pos (a b c : ℝ) (h : ¬(a = 0 ∧ b = 0 ∧ c = 0)) : 0 < enorm a b c := by
  apply Real.sqrt_pos.mpr
  have hb := sq_nonneg b
  have hc := sq_nonneg c
  have ha := sq_nonneg a
  rcases not_and_or.mp h with h1 | h1
  · have h2 : 0 < a ^ 2 := by
      rw [← sq_abs]
      exact pow_pos (abs_pos.mpr h1) 2
    linarith
  · rcases not_and_or.mp h1 with h2 | h2
    · have h3 : 0 < b ^ 2 := by
        rw [← sq_abs]
        exact pow_pos (abs_pos.mpr h2) 2
      linarith
    · have h3 : 0 < c ^ 2 := by
        rw [← sq_abs]
        exact pow_pos (abs_pos.mpr h2) 2
      linarith


theorem ble_fin_fin (a b : ℝ) : (fin a).ble (fin b) = decide (a ≤ b) := by
  simp only [EFloat.ble, EFloat.blt_fin_fin, EFloat.beq_fin_fin]
  rcases lt_trichotomy a b with h | h | h
  · simp [h, h.le]
  · simp [h]
  · simp [h.not_lt, h.ne.symm, not_le.mpr h]

theorem normalize3_fin_real (a b c : ℝ) (h : ¬(a = 0 ∧ b = 0 ∧ c = 0)) :
    normalize3 Real.sqrt ⟨fin a, fin b, fin c⟩ =
      (⟨fin (a / enorm a b c), fin (b / enorm a b c), fin (c / enorm a b c)⟩, none) := by
  have hn := enorm_pos a b c h
  simp only [normalize3, length3_fin_real, EFloat.abs_fin, EFloat.beq_fin_fin]
  rw [abs_of_pos hn]
  simp [hn.ne.symm, EFloat.div_fin_fin _ hn.ne.symm, AreAnyOverflow, IsOverflow]

/-- The parallelism test exactly as the spec words it: normalize both
vectors (true Euclidean normalization), take the signum of the dot
product, report not-parallel on a zero sign, otherwise flip the first
normalized vector by that sign and compare per-axis within `tol`. -/
noncomputable def specIsParallel (vx vy vz wx wy wz tol : ℝ) : Bool :=
  let n := enorm vx vy vz
  let m := enorm wx wy wz
  let d := vx / n * (wx / m) + vy / n * (wy / m) + vz / n * (wz / m)
  let s : ℝ := if d < 0 then -1 else if 0 < d then 1 else 0
  if s = 0 then false
  else
    decide (|wx / m - vx / n * s| ≤ tol) && decide (|wy / m - vy / n * s| ≤ tol) &&
      decide (|wz / m - vz / n * s| ≤ tol)

theorem isParallelTo3_fin (vx vy vz wx wy wz tol : ℝ)
    (hv : ¬(vx = 0 ∧ vy = 0 ∧ vz = 0)) (hw : ¬(wx = 0 ∧ wy = 0 ∧ wz = 0))
    (ht : 0 ≤ tol) :
    isParallelTo3 Real.sqrt ⟨fin vx, fin vy, fin vz⟩ ⟨fin wx, fin wy, fin wz⟩ (fin tol) =
      (specIsParallel vx vy vz wx wy wz tol, none) := by
  have htol : IsInvalidTolerance (K := ℝ) (fin tol) = false := by
    simp [IsInvalidTolerance, not_lt.mpr ht]
  simp only [isParallelTo3, htol, Bool.false_eq_true, if_false,
    normalize3_fin_real _ _ _ hv, normalize3_fin_real _ _ _ hw, dot3,
    EFloat.mul_fin_fin, EFloat.add_fin_fin, AreAnyOverflow, List.any_cons,
    List.any_nil, IsOverflow, EFloat.isInf_fin, Bool.or_self, specIsParallel]
  rcases lt_trichotomy (vx / enorm vx vy vz * (wx / enorm wx wy wz) +
      vy / enorm vx vy vz * (wy / enorm wx wy wz) +
      vz / enorm vx vy vz * (wz / enorm wx wy wz)) 0 with hlt | heq | hgt
  · simp only [Signum, EFloat.isNaN, EFloat.blt_fin_fin, EFloat.beq, hlt, decide_True,
      Bool.true_or, Bool.false_eq_true, if_false, if_true, hlt.not_lt]
    simp only [scale3, EFloat.isNaN, Bool.false_eq_true, if_false, EFloat.mul_fin_fin,
      AreAnyOverflow, List.any_cons, List.any_nil, IsOverflow, EFloat.isInf_fin,
      Bool.or_self, isEqualTo3, htol, EFloat.sub_fin_fin, EFloat.abs_fin, ble_fin_fin]
    norm_num [hlt, hlt.not_lt]
  · simp only [Signum, EFloat.isNaN, EFloat.blt_fin_fin, EFloat.beq, heq, decide_False,
      Bool.false_eq_true, if_false, if_true, lt_irrefl, Bool.or_false]
  · simp only [Signum, EFloat.isNaN, EFloat.blt_fin_fin, EFloat.beq, hgt, decide_True,
      Bool.true_or, Bool.false_eq_true, if_false, if_true, hgt.not_lt]
    simp only [scale3, EFloat.isNaN, Bool.false_eq_true, if_false, EFloat.mul_fin_fin,
      AreAnyOverflow, List.any_cons, List.any_nil, IsOverflow, EFloat.isInf_fin,
      Bool.or_self, isEqualTo3, htol, EFloat.sub_fin_fin, EFloat.abs_fin, ble_fin_fin]
    norm_num [hgt, hgt.not_lt]

theorem specIsParallel_opposite (tol : ℝ) (ht : 0 ≤ tol) :
    specIsParallel 1 0 0 (-1) 0 0 tol = true := by
  have e1 : enorm 1 0 0 = 1 := by
    unfold enorm
    norm_num [Real.sqrt_one]
  have e2 : enorm (-1) 0 0 = 1 := by
    unfold enorm
    norm_num [Real.sqrt_one]
  simp only [specIsParallel, e1, e2]
  norm_num [ht]

theorem specIsParallel_perpendicular (tol : ℝ) :
    specIsParallel 1 0 0 0 1 0 tol = false := by
  have e1 : enorm 1 0 0 = 1 := by
    unfold enorm
    norm_num [Real.sqrt_one]
  have e2 : enorm 0 1 0 = 1 := by
    unfold enorm
    norm_num [Real.sqrt_one]
  simp only [specIsParallel, e1, e2]
  norm_num

/-- C7: for nonzero finite vectors and a non-negative tolerance,
`IsParallelTo` returns exactly the spec's composition — normalize both,
take the signum of the dot product, report `false` on a zero sign,
otherwise flip the first normalized vector by the sign and compare
per-axis within `tol` — and in particular `(1,0,0)` is parallel to
`(-1,0,0)` and not parallel to `(0,1,0)` for every `tol ≥ 0`. -/
theorem C7_isParallelTo_matches_spec (vx vy vz wx wy wz tol : ℝ)
    (hv : ¬(vx = 0 ∧ vy = 0 ∧ vz = 0)) (hw : ¬(wx = 0 ∧ wy = 0 ∧ wz = 0))
    (ht : 0 ≤ tol) :
    isParallelTo3 Real.sqrt ⟨fin vx, fin vy, fin vz⟩ ⟨fin wx, fin wy, fin wz⟩ (fin tol) =
      (specIsParallel vx vy vz wx wy wz tol, none) ∧
    isParallelTo3 Real.sqrt (⟨fin 1, fin 0, fin 0⟩ : Vec3 ℝ) ⟨fin (-1), fin 0, fin 0⟩
      (fin tol) = (true, none) ∧
    isParallelTo3 Real.sqrt (⟨fin 1, fin 0, fin 0⟩ : Vec3 ℝ) ⟨fin 0, fin 1, fin 0⟩
      (fin tol) = (false, none) := by
  refine ⟨isParallelTo3_fin vx vy vz wx wy wz tol hv hw ht, ?_, ?_⟩
  · rw [isParallelTo3_fin 1 0 0 (-1) 0 0 tol (by norm_num) (by norm_num) ht,
      specIsParallel_opposite tol ht]
  · rw [isParallelTo3_fin 1 0 0 0 1 0 tol (by norm_num) (by norm_num) ht,
      specIsParallel_perpendicular tol]

/-- Witness for C7 at `v = (1, 2, 2)`, `w = (2, 4, 4)`, `tol = 0`,
together with the two concrete axis instances. -/
theorem C7_isParallelTo_matches_spec_witness :
    isParallelTo3 Real.sqrt (⟨fin 1, fin 2, fin 2⟩ : Vec3 ℝ) ⟨fin 2, fin 4, fin 4⟩
      (fin 0) = (specIsParallel 1 2 2 2 4 4 0, none) ∧
    isParallelTo3 Real.sqrt (⟨fin 1, fin 0, fin 0⟩ : Vec3 ℝ) ⟨fin (-1), fin 0, fin 0⟩
      (fin 0) = (true, none) ∧
    isParallelTo3 Real.sqrt (⟨fin 1, fin 0, fin 0⟩ : Vec3 ℝ) ⟨fin 0, fin 1, fin 0⟩
      (fin 0) = (false, none) :=
  C7_isParallelTo_matches_spec 1 2 2 2 4 4 0 (by norm_num) (by norm_num) le_rfl

/-- C4 (amended): `AngleTo` on finite vectors always succeeds and
returns the `atan2` form of Kahan's formula,
`2·atan2(‖|v|·w − |w|·v‖, ‖|v|·w + |w|·v‖)` with Euclidean norms — not
the spec's `2·atan(sqrt(t))` expression, whose numerator factor
`(a-b-c)` makes `t` non-positive (see the counterexample). -/
theorem C4_angleTo_computes_atan2_form (vx vy vz wx wy wz : ℝ) :
    angleTo3 Real.sqrt atan2E ⟨fin vx, fin vy, fin vz⟩ ⟨fin wx, fin wy, fin wz⟩ =
      (fin (kahanAtan2Angle vx vy vz wx wy wz), none) :=
  angleTo3_fin vx vy vz wx wy wz

/-- C4 counterexample: at `v = (1,0,0)`, `w = (0,1,0)` the call
succeeds with a finite angle, while the formula written in the spec
evaluates to `t = -1` and therefore `NaN` — so `AngleTo` does not return
the spec's formula value. -/
theorem C4_spec_formula_differs :
    (angleTo3 Real.sqrt atan2E (⟨fin 1, fin 0, fin 0⟩ : Vec3 ℝ) ⟨fin 0, fin 1, fin 0⟩).2 =
      none ∧
    kahanSpecAngle 1 0 0 0 1 0 = EFloat.nan ∧
    (angleTo3 Real.sqrt atan2E (⟨fin 1, fin 0, fin 0⟩ : Vec3 ℝ) ⟨fin 0, fin 1, fin 0⟩).1 ≠
      kahanSpecAngle 1 0 0 0 1 0 := by
  have h := angleTo3_fin 1 0 0 0 1 0
  refine ⟨by rw [h], kahanSpecAngle_unit_axes, ?_⟩
  rw [h, kahanSpecAngle_unit_axes]
  simp
end Spatial
